import Mathlib

/-!
# Verification of the web_analyser chat subsystem

Shallow embedding of `backend/src/services/chat/{intentRouter,contextBuilder,chatService}.js`
and the `/api/chat` route, together with proofs settling the specification claims.

Modelling conventions:
* JavaScript strings are Lean `String`s; character-level work happens on `String.data`
  (`List Char`).  `toLowerCase`/`trim` are modelled for the ASCII range that the
  keyword tables and regexes use.
* JS numbers appearing in report documents are modelled as `Int` where the code uses
  them numerically, and as already-stringified `String`s where the code only ever
  interpolates them verbatim into text.
* Nullable / possibly-absent JS fields are `Option`s; `x ?? d` is `Option.getD`,
  `a || b` on strings is `jsOrStr` (empty string is falsy).
* `async`/`await` with exceptions becomes `Except JsError`; a thrown JS error is
  `Except.error`.  External collaborators (the Mongo `Report.findById`, the Gemini
  SDK call, `Date.toLocaleDateString`) are parameters of a `ChatEnv` record.
* The orchestrator is instrumented with the list of gateway invocations it performs
  (`List GenCall`), so "the model gateway is never invoked" is `trace = []`.
-/

/-! ## Generic character/string utilities -/

/-- Boolean list-prefix test (used to model anchored regex matches and
`String.startsWith`). -/
def isPrefixB : List Char → List Char → Bool
  | [], _ => true
  | _ :: _, [] => false
  | a :: as, b :: bs => a == b && isPrefixB as bs

/-- Boolean substring test, modelling JS `String.prototype.includes`. -/
def containsSub (needle : List Char) : List Char → Bool
  | [] => isPrefixB needle []
  | c :: rest => isPrefixB needle (c :: rest) || containsSub needle rest

/-- `String`-level wrapper for `containsSub`. -/
def strIncludes (haystack needle : String) : Bool :=
  containsSub needle.data haystack.data

/-- ASCII lower-casing of one character, modelling JS `toLowerCase` on the
ASCII range (all keyword tables are ASCII). -/
def lowerChar (c : Char) : Char :=
  if 'A' ≤ c && c ≤ 'Z' then Char.ofNat (c.toNat + 32) else c

/-- JS `String.prototype.toLowerCase` (ASCII range). -/
def jsToLower (s : String) : String := ⟨s.data.map lowerChar⟩

/-- JS whitespace characters recognised by `String.prototype.trim`
(ASCII subset plus NBSP/BOM). -/
def isJsWS (c : Char) : Bool :=
  c == ' ' || c == '\t' || c == '\n' || c == '\r' ||
  c == '\x0b' || c == '\x0c' || c == ' ' || c == '﻿'

/-- JS `String.prototype.trim` at the character-list level. -/
def jsTrimC (l : List Char) : List Char :=
  ((l.dropWhile isJsWS).reverse.dropWhile isJsWS).reverse

/-- JS truthiness of an optional string (`undefined`/`null`/`''` are falsy). -/
def jsTruthyOpt : Option String → Bool
  | none => false
  | some s => !s.isEmpty

/-- JS `a || b` for a possibly-absent string `a` (empty string falsy). -/
def jsOrStr (a : Option String) (b : String) : String :=
  match a with
  | none => b
  | some s => if s.isEmpty then b else s

/-- JS `arr.slice(-n)`: the at-most-`n` most recent elements. -/
def lastN (n : Nat) (l : List α) : List α := l.drop (l.length - n)

/-! ## Word-boundary regex matching

The intent router and source detector use regexes of the shape
`\b(w1|w2|...)\b` over already lower-cased text.  `\b` holds between two
positions iff exactly one side is a word character (`[A-Za-z0-9_]`). -/

/-- JS regex word character class `\w`. -/
def isWordChar (c : Char) : Bool :=
  ('a' ≤ c && c ≤ 'z') || ('A' ≤ c && c ≤ 'Z') || ('0' ≤ c && c ≤ '9') || c == '_'

/-- Wordness of an optional character (text edge counts as non-word). -/
def isWordCharO : Option Char → Bool
  | none => false
  | some c => isWordChar c

/-- A `\b` boundary holds between adjacent (optional) characters iff their
wordness differs. -/
def wbBoundary (a b : Option Char) : Bool := isWordCharO a != isWordCharO b

/-- Does alternative `w` match at the current position (preceded by `prev`),
with `\b` required on both sides? -/
def wbHere (w : List Char) (prev : Option Char) (t : List Char) : Bool :=
  wbBoundary prev w.head? && isPrefixB w t &&
    wbBoundary w.getLast? (t.drop w.length).head?

/-- Scan `t` for a `\b w \b` match at any position. -/
def wbScan (w : List Char) (prev : Option Char) (t : List Char) : Bool :=
  wbHere w prev t ||
    match t with
    | [] => false
    | c :: rest => wbScan w (some c) rest

/-- `\b(w1|w2|...)\b.test(t)`: some alternative matches somewhere. -/
def wbTest (ws : List String) (t : List Char) : Bool :=
  ws.any fun w => wbScan w.data none t

/-! ## `intentRouter.js` -/

/-- `REPORT_KEYWORDS` (intentRouter.js). -/
def REPORT_KEYWORDS : List String :=
  ["my site", "my website", "my page", "my report",
   "score", "scores", "grade", "rating",
   "performance", "seo", "ux", "accessibility", "content quality",
   "lcp", "cls", "fcp", "ttfb", "tbt", "fid",
   "largest contentful paint", "cumulative layout shift", "total blocking time",
   "first contentful paint", "time to first byte",
   "issue", "issues", "fix", "fixes", "recommend", "improve", "optimize",
   "health score", "health grade", "risk", "priority",
   "meta tag", "meta description", "h1", "heading",
   "violation", "violations", "a11y",
   "word count", "readability", "flesch",
   "quick win", "long term", "executive summary",
   "this report", "this site", "this website", "this page",
   "analyzed", "audit", "scanned",
   "why is", "how can i", "what should i",
   "image size", "js size", "css size", "request count",
   "broken", "slow", "missing alt"]

/-- `CONCEPT_TERMS` (intentRouter.js). -/
def CONCEPT_TERMS : List String :=
  ["web vital", "core web vitals", "lighthouse",
   "cdn", "server-side rendering", "ssr", "csr",
   "lazy loading", "code splitting", "tree shaking",
   "minification", "compression", "caching", "cache",
   "responsive design", "mobile first",
   "schema markup", "structured data", "open graph",
   "sitemap", "robots.txt", "canonical",
   "wcag", "aria", "screen reader",
   "dns", "https", "ssl", "tls",
   "framework", "react", "next.js", "vue", "angular",
   "hosting", "deployment", "ci/cd"]

/-- JS regex `.` (no `s` flag): any character except a line terminator. -/
def jsDotChar (c : Char) : Bool :=
  !(c == '\n' || c == '\r' || c == ' ' || c == ' ')

/-- `/^what does .+ mean/`: after the literal opener, a nonempty run of
non-terminator characters followed by the literal `" mean"` (the regex has a
mandatory space before `mean`). -/
def whatDoesMeanPat (t : List Char) : Bool :=
  isPrefixB "what does ".data t &&
    (let r := t.drop 10
     (List.range r.length).any fun i =>
       1 ≤ i && (r.take i).all jsDotChar && isPrefixB " mean".data (r.drop i))

/-- `/^why (?:is|are|does|do) (?!my|this)/`: one of the openers, with the
negative lookahead on what follows. -/
def whyNotMinePat (t : List Char) : Bool :=
  ["why is ", "why are ", "why does ", "why do "].any fun p =>
    isPrefixB p.data t &&
      !(isPrefixB "my".data (t.drop p.length) || isPrefixB "this".data (t.drop p.length))

/-- `CONCEPT_PATTERNS` (intentRouter.js), each regex as a Boolean test on the
lower-cased text. -/
def CONCEPT_PATTERNS : List (List Char → Bool) :=
  [fun t => isPrefixB "what is ".data t || isPrefixB "what are ".data t,
   fun t => isPrefixB "how does ".data t || isPrefixB "how do ".data t || isPrefixB "how is ".data t,
   fun t => isPrefixB "explain ".data t,
   fun t => isPrefixB "define ".data t,
   fun t => isPrefixB "tell me about ".data t,
   whatDoesMeanPat,
   whyNotMinePat]

/-- Ownership-word alternatives of the ownership heuristic regex. -/
def OWNERSHIP_WORDS : List String := ["my", "this", "our", "the"]

/-- Subject-word alternatives of the ownership heuristic regex. -/
def SUBJECT_WORDS : List String := ["site", "website", "page", "report", "score", "audit", "grade"]

/-- Core-Web-Vitals acronyms of the metric regex. -/
def CWV_WORDS : List String := ["lcp", "cls", "fcp", "ttfb", "tbt", "fid"]

/-- `hasOwnership` in `detectIntent`:
`/\b(my|this|our|the)\b/.test(text) && /\b(site|website|page|report|score|audit|grade)\b/.test(text)`. -/
def hasOwnership (t : List Char) : Bool :=
  wbTest OWNERSHIP_WORDS t && wbTest SUBJECT_WORDS t

/-- Phase-1 report score of `detectIntent`: +5 for ownership, +1 per keyword
substring, +3/+1 for a CWV acronym depending on context. -/
def reportScoreOf (t : List Char) (hasReportId : Bool) : Nat :=
  (if hasOwnership t then 5 else 0) +
  REPORT_KEYWORDS.countP (fun k => containsSub k.data t) +
  (if wbTest CWV_WORDS t then (if hasReportId || hasOwnership t then 3 else 1) else 0)

/-- Phase-2 concept score of `detectIntent`: +3 per matching opener pattern,
+2 per concept-term substring. -/
def conceptScoreOf (t : List Char) : Nat :=
  3 * CONCEPT_PATTERNS.countP (fun p => p t) +
  2 * CONCEPT_TERMS.countP (fun w => containsSub w.data t)

/-- `IntentResult` record of `detectIntent`. -/
structure IntentResult where
  intent : String
  confidence : ℚ
deriving DecidableEq, Repr

/-- `detectIntent(message, hasReportId)` (intentRouter.js): lower-case and trim,
score, then decide in the fixed order. -/
def detectIntent (message : String) (hasReportId : Bool) : IntentResult :=
  let t := jsTrimC (jsToLower message).data
  let reportScore := reportScoreOf t hasReportId
  let conceptScore := conceptScoreOf t
  if 5 ≤ reportScore then ⟨"REPORT_INTENT", 0.95⟩
  else if 3 ≤ conceptScore then ⟨"WEBSITE_CONCEPT_INTENT", 0.9⟩
  else if 2 ≤ reportScore then
    (if hasReportId then ⟨"REPORT_INTENT", 0.7⟩ else ⟨"WEBSITE_CONCEPT_INTENT", 0.6⟩)
  else ⟨"GENERAL_INTENT", 0.5⟩

example : detectIntent "Why is my score low?" false = ⟨"REPORT_INTENT", 0.95⟩ := rfl

example : detectIntent "hii" false = ⟨"GENERAL_INTENT", 0.5⟩ := rfl

example : detectIntent "What is LCP?" false = ⟨"WEBSITE_CONCEPT_INTENT", 0.9⟩ := rfl

/-! ## `contextBuilder.js` — report document model

Report documents live in the external store; their fields are translated from
the accesses the formatters make.  JS numbers used numerically are `Int`
(integer-valued in the documents; no claim depends on fractional rendering),
numbers only ever interpolated verbatim are carried as their stringification. -/

/-- `aggregator.module_scores`. -/
structure ModuleScores where
  performance : Option Int
  seo : Option Int
  ux : Option Int
  content : Option Int
deriving DecidableEq, Repr

/-- `{}` default for `agg.module_scores || {}`. -/
def emptyModuleScores : ModuleScores := ⟨none, none, none, none⟩

/-- `report.aggregator`. -/
structure Aggregator where
  website_health_score : Option Int
  health_grade : Option String
  overall_risk_level : Option String
  action_recommendation_flag : Option String
  dominant_risk_domains : List String
  module_scores : Option ModuleScores
deriving DecidableEq, Repr

/-- `{}` default for `report.aggregator || {}`. -/
def emptyAggregator : Aggregator := ⟨none, none, none, none, [], none⟩

/-- `performance.metrics`; each metric is carried as the string JS would
interpolate for it. -/
structure PerfMetrics where
  lcp_s : Option String
  cls : Option String
  fcp_s : Option String
  ttfb_s : Option String
  tbt_ms : Option String
  total_js_kb : Option String
  total_css_kb : Option String
  total_images_kb : Option String
  total_requests : Option String
deriving DecidableEq, Repr

/-- `{}` default for `perf.metrics || {}`. -/
def emptyPerfMetrics : PerfMetrics := ⟨none, none, none, none, none, none, none, none, none⟩

/-- An entry of `dominant_negative_factors`: either a plain string or an
object; `stringified` carries `JSON.stringify(f)` of the open-shaped object. -/
inductive JsFactor where
  | str (s : String)
  | obj (factor : Option String) (name : Option String) (stringified : String)
deriving DecidableEq, Repr

/-- `typeof f === 'string' ? f : f.factor || f.name || JSON.stringify(f)`. -/
def renderFactor : JsFactor → String
  | .str s => s
  | .obj f n j => jsOrStr f (jsOrStr n j)

/-- An issue object; `stringified` carries `JSON.stringify(issue)`. -/
structure Issue where
  severity : Option String
  description : Option String
  message : Option String
  stringified : String
deriving DecidableEq, Repr

/-- A recommended-fix object (`fix` in the source; named `FixItem` here since
`Fix` exists upstream). -/
structure FixItem where
  title : Option String
  name : Option String
  description : Option String
  priority : Option Int
deriving DecidableEq, Repr

/-- A `content.keywords` entry: plain string or object;
`stringified` carries `JSON.stringify(k)`. -/
inductive JsKeyword where
  | str (s : String)
  | obj (word : Option String) (term : Option String) (stringified : String)
deriving DecidableEq, Repr

/-- `typeof k === 'string' ? k : k.word || k.term || JSON.stringify(k)`. -/
def renderKeyword : JsKeyword → String
  | .str s => s
  | .obj w t j => jsOrStr w (jsOrStr t j)

/-- `modules.performance`. -/
structure PerfData where
  score : Option Int
  confidence : Option String
  recommendation_flag : Option String
  metrics : Option PerfMetrics
  dominant_negative_factors : List JsFactor
  issues : List Issue
  fixes : List FixItem
deriving DecidableEq, Repr

/-- `modules.seo`. -/
structure SEOData where
  score : Option Int
  indexability_status : Option String
  crawl_health_indicator : Option String
  recommendation_flag : Option String
  title_length : Option Int
  meta_description_length : Option Int
  h1_count : Option Int
  images_missing_alt_count : Option Int
  internal_links_count : Option Int
  external_links_count : Option Int
  primary_seo_risks : List String
  issues : List Issue
  fixes : List FixItem
deriving DecidableEq, Repr

/-- `ux.violations_by_impact`. -/
structure ByImpact where
  critical : Option Int
  serious : Option Int
  moderate : Option Int
  minor : Option Int
deriving DecidableEq, Repr

/-- `{}` default for `ux.violations_by_impact || {}`. -/
def emptyByImpact : ByImpact := ⟨none, none, none, none⟩

/-- `modules.ux`. -/
structure UXData where
  score : Option Int
  accessibility_risk_level : Option String
  trust_impact_indicator : Option String
  recommendation_flag : Option String
  violations_count : Option Int
  violations_by_impact : Option ByImpact
  ctas_count : Option Int
  ctas_above_fold : Option Int
  primary_friction_sources : List String
  issues : List Issue
  fixes : List FixItem
deriving DecidableEq, Repr

/-- `modules.content`. -/
structure ContentData where
  score : Option Int
  intent_match_level : Option String
  content_depth_status : Option String
  recommendation_flag : Option String
  word_count : Option Int
  flesch_reading_ease : Option Int
  flesch_kincaid_grade : Option Int
  keywords : List JsKeyword
  primary_content_gaps : List String
  issues : List Issue
  fixes : List FixItem
deriving DecidableEq, Repr

/-- An `ai_insights.topPriorities` entry. -/
structure PriorityItem where
  title : Option String
  impact : Option String
  estimatedROI : Option String
  description : Option String
deriving DecidableEq, Repr

/-- `report.ai_insights`. -/
structure AIInsights where
  executiveSummary : Option String
  topPriorities : List PriorityItem
  quickWins : List String
  longTermGoals : List String
deriving DecidableEq, Repr

/-- `report.modules`. -/
structure Modules where
  performance : Option PerfData
  seo : Option SEOData
  ux : Option UXData
  content : Option ContentData
deriving DecidableEq, Repr

/-- A report document, restricted to the fields the chat subsystem reads. -/
structure Report where
  url : String
  final_url : Option String
  created_at : Option String
  aggregator : Option Aggregator
  modules : Option Modules
  ai_insights : Option AIInsights
deriving DecidableEq, Repr

/-! ### Rendering helpers shared by the formatters -/

/-- `${x ?? 'N/A'}` for an integer-valued field. -/
def showIntNA : Option Int → String
  | some n => toString n
  | none => "N/A"

/-- `${x ?? 0}` for an integer-valued field. -/
def showIntD0 : Option Int → String
  | some n => toString n
  | none => "0"

/-- `flag?.replace(/_/g, ' ') ?? 'N/A'`. -/
def flagNA : Option String → String
  | some s => ⟨s.data.map fun c => if c == '_' then ' ' else c⟩
  | none => "N/A"

/-- `${m != null ? m + suffix : 'N/A'}`. -/
def optSuffix (o : Option String) (suffix : String) : String :=
  match o with
  | some v => v ++ suffix
  | none => "N/A"

/-- `${x != null ? x.toFixed(1) : 'N/A'}` on an integer-valued field. -/
def optFixed1 : Option Int → String
  | some n => toString n ++ ".0"
  | none => "N/A"

/-- `s || d` on an already-computed string (empty string falsy). -/
def jsOrEmpty (s d : String) : String := if s.isEmpty then d else s

/-- JS `toUpperCase` (ASCII range). -/
def jsToUpper (s : String) : String :=
  ⟨s.data.map fun c => if 'a' ≤ c && c ≤ 'z' then Char.ofNat (c.toNat - 32) else c⟩

/-- One numbered issue line of the "Issues Found" block. -/
def issueLine (i : Nat) (iss : Issue) : String :=
  "  " ++ toString (i + 1) ++ ". [" ++ jsToUpper (jsOrStr iss.severity "info") ++ "] " ++
    jsOrStr iss.description (jsOrStr iss.message iss.stringified)

/-- One numbered fix line of the "Recommended Fixes" block. -/
def fixLine (i : Nat) (fx : FixItem) : String :=
  let title := jsOrStr fx.title (jsOrStr fx.name "Fix")
  let desc := jsOrStr fx.description ""
  let priority := match fx.priority with
    | some n => if n == 0 then "" else "P" ++ toString n
    | none => ""
  "  " ++ toString (i + 1) ++ ". " ++
    (if priority.isEmpty then "" else "[" ++ priority ++ "] ") ++ title ++
    (if desc.isEmpty then "" else ": " ++ desc)

/-- `formatIssuesAndFixes` (contextBuilder.js), as the list of text lines it
appends. -/
def issuesAndFixesLines (issues : List Issue) (fixes : List FixItem) : List String :=
  (if issues.isEmpty then [] else
    ["", "Issues Found (" ++ toString issues.length ++ "):"] ++
      issues.enum.map fun p => issueLine p.1 p.2) ++
  (if fixes.isEmpty then [] else
    ["", "Recommended Fixes (" ++ toString fixes.length ++ "):"] ++
      fixes.enum.map fun p => fixLine p.1 p.2)

/-! ### The module formatters, as lists of text lines

Each JS formatter builds one template-literal string; the embedding keeps the
string split at its `\n`s, and the chunk string is the `'\n'`-join of the
lines (`joinLinesC` below). -/

/-- `formatOverview(report, agg)`; `dfmt` models
`new Date(x).toLocaleDateString()`. -/
def formatOverviewLines (dfmt : String → String) (r : Report) : List String :=
  let agg := r.aggregator.getD emptyAggregator
  let scores := agg.module_scores.getD emptyModuleScores
  ["## WEBSITE AUDIT OVERVIEW",
   "URL: " ++ jsOrStr r.final_url r.url,
   "Overall Health Score: " ++ showIntNA agg.website_health_score ++ " / 100",
   "Health Grade: " ++ agg.health_grade.getD "N/A",
   "Overall Risk Level: " ++ agg.overall_risk_level.getD "N/A",
   "Action Recommendation: " ++ flagNA agg.action_recommendation_flag,
   "Dominant Risk Domains: " ++ jsOrEmpty (String.intercalate ", " agg.dominant_risk_domains) "None",
   "Module Scores:",
   "  - Performance: " ++ showIntNA scores.performance ++ "/100",
   "  - SEO: " ++ showIntNA scores.seo ++ "/100",
   "  - UX & Accessibility: " ++ showIntNA scores.ux ++ "/100",
   "  - Content Quality: " ++ showIntNA scores.content ++ "/100",
   "Analysis Date: " ++ (if jsTruthyOpt r.created_at then dfmt (r.created_at.getD "") else "N/A")]

/-- `formatPerformance(perf)`. -/
def formatPerformanceLines (perf : PerfData) : List String :=
  let m := perf.metrics.getD emptyPerfMetrics
  ("## PERFORMANCE MODULE (Score: " ++ showIntNA perf.score ++ "/100)") ::
  ("Confidence: " ++ perf.confidence.getD "N/A") ::
  ("Recommendation: " ++ flagNA perf.recommendation_flag) ::
  "" ::
  "Key Metrics:" ::
  ("  - LCP (Largest Contentful Paint): " ++ optSuffix m.lcp_s "s" ++ " (good: <2.5s, bad: >4.0s)") ::
  ("  - CLS (Cumulative Layout Shift): " ++ m.cls.getD "N/A" ++ " (good: <0.1, bad: >0.25)") ::
  ("  - FCP (First Contentful Paint): " ++ optSuffix m.fcp_s "s" ++ " (good: <1.8s, bad: >3.0s)") ::
  ("  - TTFB (Time to First Byte): " ++ optSuffix m.ttfb_s "s" ++ " (good: <0.8s, bad: >1.8s)") ::
  ("  - TBT (Total Blocking Time): " ++ optSuffix m.tbt_ms "ms" ++ " (good: <200ms, bad: >600ms)") ::
  ("  - Total JS Size: " ++ optSuffix m.total_js_kb " KB") ::
  ("  - Total CSS Size: " ++ optSuffix m.total_css_kb " KB") ::
  ("  - Total Image Size: " ++ optSuffix m.total_images_kb " KB") ::
  ("  - Total Requests: " ++ m.total_requests.getD "N/A") ::
  ((if perf.dominant_negative_factors.isEmpty then [] else
    "" :: "Dominant Negative Factors:" ::
      perf.dominant_negative_factors.map fun f => "  - " ++ renderFactor f) ++
   issuesAndFixesLines perf.issues perf.fixes)

/-- `formatSEO(seo)`. -/
def formatSEOLines (seo : SEOData) : List String :=
  ("## SEO MODULE (Score: " ++ showIntNA seo.score ++ "/100)") ::
  ("Indexability Status: " ++ seo.indexability_status.getD "N/A") ::
  ("Crawl Health: " ++ seo.crawl_health_indicator.getD "N/A") ::
  ("Recommendation: " ++ flagNA seo.recommendation_flag) ::
  "" ::
  "Key Metrics:" ::
  ("  - Title Length: " ++ showIntNA seo.title_length ++ " chars (ideal: 30-60)") ::
  ("  - Meta Description Length: " ++ showIntNA seo.meta_description_length ++ " chars (ideal: 120-160)") ::
  ("  - H1 Count: " ++ showIntNA seo.h1_count ++ " (ideal: exactly 1)") ::
  ("  - Images Missing Alt Text: " ++ showIntNA seo.images_missing_alt_count) ::
  ("  - Internal Links: " ++ showIntNA seo.internal_links_count) ::
  ("  - External Links: " ++ showIntNA seo.external_links_count) ::
  ((if seo.primary_seo_risks.isEmpty then [] else
    ["Primary SEO Risks: " ++ String.intercalate ", " seo.primary_seo_risks]) ++
   issuesAndFixesLines seo.issues seo.fixes)

/-- `formatUX(ux)`. -/
def formatUXLines (ux : UXData) : List String :=
  let byImpact := ux.violations_by_impact.getD emptyByImpact
  ("## UX & ACCESSIBILITY MODULE (Score: " ++ showIntNA ux.score ++ "/100)") ::
  ("Accessibility Risk Level: " ++ ux.accessibility_risk_level.getD "N/A") ::
  ("Trust Impact: " ++ ux.trust_impact_indicator.getD "N/A") ::
  ("Recommendation: " ++ flagNA ux.recommendation_flag) ::
  "" ::
  "Key Metrics:" ::
  ("  - Total Violations: " ++ showIntD0 ux.violations_count) ::
  ("  - Critical Violations: " ++ showIntD0 byImpact.critical) ::
  ("  - Serious Violations: " ++ showIntD0 byImpact.serious) ::
  ("  - Moderate Violations: " ++ showIntD0 byImpact.moderate) ::
  ("  - Minor Violations: " ++ showIntD0 byImpact.minor) ::
  ("  - Total CTAs: " ++ showIntNA ux.ctas_count) ::
  ("  - CTAs Above Fold: " ++ showIntNA ux.ctas_above_fold) ::
  ((if ux.primary_friction_sources.isEmpty then [] else
    ["Friction Sources: " ++ String.intercalate ", " ux.primary_friction_sources]) ++
   issuesAndFixesLines ux.issues ux.fixes)

/-- `formatContent(content)`. -/
def formatContentLines (c : ContentData) : List String :=
  ("## CONTENT QUALITY MODULE (Score: " ++ showIntNA c.score ++ "/100)") ::
  ("Intent Match Level: " ++ c.intent_match_level.getD "N/A") ::
  ("Content Depth Status: " ++ c.content_depth_status.getD "N/A") ::
  ("Recommendation: " ++ flagNA c.recommendation_flag) ::
  "" ::
  "Key Metrics:" ::
  ("  - Word Count: " ++ showIntNA c.word_count ++ " (ideal: >300, good: >800)") ::
  ("  - Flesch Reading Ease: " ++ optFixed1 c.flesch_reading_ease ++ " (higher = easier to read)") ::
  ("  - Flesch-Kincaid Grade Level: " ++ optFixed1 c.flesch_kincaid_grade) ::
  ("  - Keywords Found: " ++ toString c.keywords.length) ::
  ((if c.primary_content_gaps.isEmpty then [] else
    ["Content Gaps: " ++ String.intercalate ", " c.primary_content_gaps]) ++
   (if c.keywords.isEmpty then [] else
    ["Top Keywords: " ++ String.intercalate ", " ((c.keywords.take 8).map renderKeyword)]) ++
   issuesAndFixesLines c.issues c.fixes)

/-- The line block of one `topPriorities` entry in `formatAIInsights`. -/
def priorityLines (p : Nat × PriorityItem) : List String :=
  ["  " ++ toString (p.1 + 1) ++ ". " ++ jsOrStr p.2.title "Priority" ++
     " (Impact: " ++ jsOrStr p.2.impact "N/A" ++ ", ROI: " ++ jsOrStr p.2.estimatedROI "N/A" ++ ")"] ++
  (if jsTruthyOpt p.2.description then ["     " ++ p.2.description.getD ""] else [])

/-- `formatAIInsights(insights)`. -/
def formatAIInsightsLines (ins : AIInsights) : List String :=
  "## AI STRATEGIC INSIGHTS" ::
  ((if jsTruthyOpt ins.executiveSummary then
    ["Executive Summary: " ++ ins.executiveSummary.getD ""] else []) ++
   (if ins.topPriorities.isEmpty then [] else
    "" :: "Top Priorities:" :: (ins.topPriorities.enum.map priorityLines).flatten) ++
   (if ins.quickWins.isEmpty then [] else
    "" :: "Quick Wins:" :: ins.quickWins.map fun w => "  - " ++ w) ++
   (if ins.longTermGoals.isEmpty then [] else
    "" :: "Long Term Goals:" :: ins.longTermGoals.map fun g => "  - " ++ g))

/-! ### `buildReportContext` chunk assembly -/

/-- `report.modules?.performance`. -/
def modPerf (r : Report) : Option PerfData := r.modules.bind Modules.performance

/-- `report.modules?.seo`. -/
def modSEO (r : Report) : Option SEOData := r.modules.bind Modules.seo

/-- `report.modules?.ux`. -/
def modUX (r : Report) : Option UXData := r.modules.bind Modules.ux

/-- `report.modules?.content`. -/
def modContent (r : Report) : Option ContentData := r.modules.bind Modules.content

/-- Push one chunk when the module data is present. -/
def optChunk (o : Option α) (f : α → List String) : List (List String) :=
  match o with
  | some x => [f x]
  | none => []

/-- The ordered chunk list `chunks` of `buildReportContext`: overview first,
then each module section only if its data exists. -/
def reportChunks (dfmt : String → String) (r : Report) : List (List String) :=
  [formatOverviewLines dfmt r] ++
  optChunk (modPerf r) formatPerformanceLines ++
  optChunk (modSEO r) formatSEOLines ++
  optChunk (modUX r) formatUXLines ++
  optChunk (modContent r) formatContentLines ++
  optChunk r.ai_insights formatAIInsightsLines

/-- Join with a separator (`Array.prototype.join` on lists of characters). -/
def joinWith (sep : List α) : List (List α) → List α
  | [] => []
  | [x] => x
  | x :: y :: rest => x ++ sep ++ joinWith sep (y :: rest)

/-- A chunk string's characters: its lines joined by `'\n'`. -/
def joinLinesC (ls : List String) : List Char := joinWith ['\n'] (ls.map String.data)

/-- `chunks.join('\n\n')` — the characters of `fullContext`. -/
def fullContextChars (dfmt : String → String) (r : Report) : List Char :=
  joinWith ['\n', '\n'] ((reportChunks dfmt r).map joinLinesC)

/-- The `fullContext` string returned by `buildReportContext`. -/
def fullContextStr (dfmt : String → String) (r : Report) : String :=
  ⟨fullContextChars dfmt r⟩

/-- The `reportSummary` returned by `buildReportContext` (`chunks[0]`). -/
def reportSummaryStr (dfmt : String → String) (r : Report) : String :=
  ⟨joinLinesC (formatOverviewLines dfmt r)⟩

/-! ## `chatService.js` -/

/-- A thrown JS error, reduced to the only field the code inspects
(`error.message`, possibly `undefined`). -/
structure JsError where
  message : Option String
deriving DecidableEq, Repr

/-- One turn of the incoming chat history (`{role, text}`). -/
structure ChatMsg where
  role : String
  text : String
deriving DecidableEq, Repr

/-- One entry of the `contents` array sent to the SDK
(`{role, parts: [{text}]}` with its single part flattened). -/
structure GenContent where
  role : String
  text : String
deriving DecidableEq, Repr

/-- One invocation of `model.generateContent`: the system instruction the
model was constructed with, plus the `contents` array. -/
structure GenCall where
  system : String
  contents : List GenContent
deriving DecidableEq, Repr

/-- External collaborators of the chat service:
`process.env.GEMINI_API_KEY`, `Report.findById`, the Gemini SDK call
(covering `generateContent` + `response.text()`, either of which may throw),
and `Date.toLocaleDateString`. -/
structure ChatEnv where
  geminiApiKey : Option String
  findById : String → Except JsError (Option Report)
  generate : GenCall → Except JsError String
  dateFmt : String → String

/-- The three prompt templates of `prompts.js`.  Their text is an opaque
payload: the service only forwards it verbatim to the gateway and no claim
inspects it, so the constants stand for the full template strings. -/
def RAG_MODE_PROMPT : String := "<RAG_MODE_PROMPT template text>"

/-- See `RAG_MODE_PROMPT`. -/
def HYBRID_MODE_PROMPT : String := "<HYBRID_MODE_PROMPT template text>"

/-- See `RAG_MODE_PROMPT`. -/
def OPEN_MODE_PROMPT : String := "<OPEN_MODE_PROMPT template text>"

/-- Fixed reply when `GEMINI_API_KEY` is not configured. -/
def CONFIG_REPLY : String :=
  "Chat is unavailable. Please configure GEMINI_API_KEY in the backend .env file. You can get a free API key from https://aistudio.google.com/app/apikey"

/-- Fixed guidance reply for report intent without a loaded report. -/
def NO_REPORT_REPLY : String :=
  "I\x27d love to help with your website analysis, but I don\x27t have a report loaded. Please run a website scan first, then ask me questions from the dashboard."

/-- Fixed apologetic reply produced by the orchestrator's catch-all. -/
def APOLOGY_REPLY : String :=
  "I\x27m sorry, I encountered an error. Please try asking again in a slightly different way."

/-- Fixed reply when the vendor error message mentions `API_KEY`. -/
def INVALID_KEY_REPLY : String :=
  "Chat is unavailable. The Gemini API key appears to be invalid. Please check your GEMINI_API_KEY configuration."

/-- The result record `{reply, intent, sources}` returned by `chat`. -/
structure ChatResult where
  reply : String
  intent : String
  sources : List String
deriving DecidableEq, Repr

/-- `buildReportContext`'s result `{fullContext, reportSummary, url}`. -/
structure ContextResult where
  fullContext : String
  reportSummary : String
  url : String
deriving Repr

/-- `buildReportContext(reportId)` (contextBuilder.js): fetch, fail with
`Report not found` on a missing document, otherwise assemble the chunks. -/
def buildReportContext (env : ChatEnv) (reportId : String) : Except JsError ContextResult :=
  match env.findById reportId with
  | .error e => .error e
  | .ok none => .error ⟨some "Report not found"⟩
  | .ok (some r) =>
      .ok ⟨fullContextStr env.dateFmt r, reportSummaryStr env.dateFmt r,
           jsOrStr r.final_url r.url⟩

/-- `buildReportSummary(reportId)` (contextBuilder.js): empty string for a
falsy id, a failed fetch (the `catch`), or a missing document; otherwise the
compact four-line digest. -/
def buildReportSummary (env : ChatEnv) (reportId : Option String) : String :=
  if !(jsTruthyOpt reportId) then "" else
  match env.findById (reportId.getD "") with
  | .error _ => ""
  | .ok none => ""
  | .ok (some r) =>
      let agg := r.aggregator.getD emptyAggregator
      let scores := agg.module_scores.getD emptyModuleScores
      "[User\x27s website: " ++ jsOrStr r.final_url r.url ++ "]\n" ++
      "Health Score: " ++ showIntNA agg.website_health_score ++ "/100 (Grade: " ++
        agg.health_grade.getD "N/A" ++ ")\n" ++
      "Module Scores — Performance: " ++ showIntNA scores.performance ++
        ", SEO: " ++ showIntNA scores.seo ++ ", UX: " ++ showIntNA scores.ux ++
        ", Content: " ++ showIntNA scores.content ++ "\n" ++
      "Risk Level: " ++ agg.overall_risk_level.getD "N/A"

/-- The `contents` array built by `callGemini`: the mapped
`chatHistory.slice(-10)` followed by the current user prompt. -/
def geminiContents (chatHistory : List ChatMsg) (userPrompt : String) : List GenContent :=
  (lastN 10 chatHistory).map
    (fun m => ⟨if m.role == "assistant" then "model" else "user", m.text⟩) ++
  [⟨"user", userPrompt⟩]

/-- Does `error.message?.includes('API_KEY')` hold? (`undefined` message is
falsy). -/
def errMentionsApiKey (e : JsError) : Bool :=
  match e.message with
  | some m => strIncludes m "API_KEY"
  | none => false

/-- `callGemini(systemInstruction, userPrompt, chatHistory)` (chatService.js).
Returns the reply or the re-raised error, paired with the gateway invocations
made (always exactly the one `generateContent` call). -/
def callGemini (env : ChatEnv) (systemInstruction userPrompt : String)
    (chatHistory : List ChatMsg) : Except JsError String × List GenCall :=
  let call : GenCall := ⟨systemInstruction, geminiContents chatHistory userPrompt⟩
  match env.generate call with
  | .ok text => (.ok text, [call])
  | .error e =>
      if errMentionsApiKey e then (.ok INVALID_KEY_REPLY, [call])
      else (.error e, [call])

/-- `detectSources`' performance-module regex alternatives. -/
def PERF_SOURCE_WORDS : List String :=
  ["performance", "lcp", "cls", "fcp", "ttfb", "tbt", "fid", "speed", "slow",
   "fast", "load", "js", "css", "image size", "request", "web vital"]

/-- `detectSources`' SEO-module regex alternatives. -/
def SEO_SOURCE_WORDS : List String :=
  ["seo", "search engine", "meta", "title", "description", "h1", "heading",
   "alt text", "sitemap", "canonical", "index", "crawl", "link", "backlink"]

/-- `detectSources`' UX-module regex alternatives. -/
def UX_SOURCE_WORDS : List String :=
  ["ux", "accessibility", "a11y", "violation", "cta", "friction", "mobile",
   "viewport", "touch", "aria", "screen reader", "wcag"]

/-- `detectSources`' content-module regex alternatives. -/
def CONTENT_SOURCE_WORDS : List String :=
  ["content", "readability", "word count", "flesch", "keyword", "intent",
   "depth", "quality", "text", "copy"]

/-- `detectSources(message)` (chatService.js): push each module tag whose
keyword regex fires on the lower-cased message; `['overview']` if none did. -/
def detectSources (message : String) : List String :=
  let text := (jsToLower message).data
  let sources :=
    (if wbTest PERF_SOURCE_WORDS text then ["performance"] else []) ++
    (if wbTest SEO_SOURCE_WORDS text then ["seo"] else []) ++
    (if wbTest UX_SOURCE_WORDS text then ["ux"] else []) ++
    (if wbTest CONTENT_SOURCE_WORDS text then ["content"] else [])
  if sources.isEmpty then ["overview"] else sources

/-- `handleReportIntent` (RAG mode): build the context (may throw), compute
sources, call the gateway. -/
def handleReportIntent (env : ChatEnv) (reportId : String) (userMessage : String)
    (chatHistory : List ChatMsg) : Except JsError (String × List String) × List GenCall :=
  match buildReportContext env reportId with
  | .error e => (.error e, [])
  | .ok ctx =>
      let sources := detectSources userMessage
      let userPrompt :=
        "\n═══ WEBSITE AUDIT REPORT DATA ═══\n" ++ ctx.fullContext ++
        "\n═══ END OF REPORT DATA ═══\n\nUser Question: " ++ userMessage
      match callGemini env RAG_MODE_PROMPT userPrompt chatHistory with
      | (.ok reply, tr) => (.ok (reply, sources), tr)
      | (.error e, tr) => (.error e, tr)

/-- `handleConceptIntent` (hybrid mode): optionally prepend the report-summary
banner, then call the gateway. -/
def handleConceptIntent (env : ChatEnv) (reportId : Option String) (userMessage : String)
    (chatHistory : List ChatMsg) : Except JsError String × List GenCall :=
  let contextNote :=
    if jsTruthyOpt reportId then
      let summary := buildReportSummary env reportId
      if summary.isEmpty then ""
      else "\n\n═══ USER\x27S REPORT SUMMARY (reference if relevant) ═══\n" ++
           summary ++ "\n═══ END ═══\n"
    else ""
  let userPrompt := contextNote ++ "\nUser Question: " ++ userMessage
  callGemini env HYBRID_MODE_PROMPT userPrompt chatHistory

/-- `handleGeneralIntent` (open mode). -/
def handleGeneralIntent (env : ChatEnv) (userMessage : String)
    (chatHistory : List ChatMsg) : Except JsError String × List GenCall :=
  callGemini env OPEN_MODE_PROMPT ("User Question: " ++ userMessage) chatHistory

/-- `chat(reportId, userMessage, chatHistory)` (chatService.js): the
orchestrator.  Returns the `{reply, intent, sources}` record paired with the
list of gateway invocations performed during the call. -/
def chat (env : ChatEnv) (reportId : Option String) (userMessage : String)
    (chatHistory : List ChatMsg) : ChatResult × List GenCall :=
  if !(jsTruthyOpt env.geminiApiKey) then (⟨CONFIG_REPLY, "ERROR", []⟩, [])
  else
    let intent := (detectIntent userMessage (jsTruthyOpt reportId)).intent
    if intent == "REPORT_INTENT" then
      if !(jsTruthyOpt reportId) then (⟨NO_REPORT_REPLY, intent, []⟩, [])
      else
        match handleReportIntent env (reportId.getD "") userMessage chatHistory with
        | (.ok (reply, sources), tr) => (⟨reply, intent, sources⟩, tr)
        | (.error _, tr) => (⟨APOLOGY_REPLY, intent, []⟩, tr)
    else if intent == "WEBSITE_CONCEPT_INTENT" then
      match handleConceptIntent env reportId userMessage chatHistory with
      | (.ok reply, tr) => (⟨reply, intent, []⟩, tr)
      | (.error _, tr) => (⟨APOLOGY_REPLY, intent, []⟩, tr)
    else
      match handleGeneralIntent env userMessage chatHistory with
      | (.ok reply, tr) => (⟨reply, intent, []⟩, tr)
      | (.error _, tr) => (⟨APOLOGY_REPLY, intent, []⟩, tr)

/-! ## Claim C7 — history cap -/

/-- **C7.** For every chat history supplied, the history part of the
`contents` passed to the model call is `chatHistory.slice(-10)`: it has at
most 10 entries (exactly `min 10 n`), is a suffix of the input — i.e. the
most recent turns in their original, most-recent-last order — and the
`contents` array is exactly that mapped suffix followed by the current user
prompt. -/
theorem callGemini_history_capped (chatHistory : List ChatMsg) (userPrompt : String) :
    (lastN 10 chatHistory).length ≤ 10 ∧
    (lastN 10 chatHistory).length = min 10 chatHistory.length ∧
    List.IsSuffix (lastN 10 chatHistory) chatHistory ∧
    geminiContents chatHistory userPrompt =
      (lastN 10 chatHistory).map
        (fun m => ⟨if m.role == "assistant" then "model" else "user", m.text⟩) ++
      [⟨"user", userPrompt⟩] := by
  refine ⟨?_, ?_, ?_, rfl⟩
  · simp only [lastN, List.length_drop]; omega
  · simp only [lastN, List.length_drop]; omega
  · exact ⟨chatHistory.take (chatHistory.length - 10), List.take_append_drop _ _⟩

/-! ## Claim C6 — `buildReportSummary` never propagates an error -/

/-- **C6.** `buildReportSummary` is total (it can only return a string, never
raise), and it returns the empty string whenever the report identifier is
falsy, the backing fetch throws, or the document is absent. -/
theorem buildReportSummary_safe (env : ChatEnv) (reportId : Option String) :
    (jsTruthyOpt reportId = false → buildReportSummary env reportId = "") ∧
    (∀ e, env.findById (reportId.getD "") = .error e → buildReportSummary env reportId = "") ∧
    (env.findById (reportId.getD "") = .ok none → buildReportSummary env reportId = "") := by
  refine ⟨fun h => by simp [buildReportSummary, h], fun e he => ?_, fun hn => ?_⟩
  · cases htr : jsTruthyOpt reportId <;> simp [buildReportSummary, htr, he]
  · cases htr : jsTruthyOpt reportId <;> simp [buildReportSummary, htr, hn]

/-- A trivial environment used to witness the claims about the fetch layer. -/
def envNoDoc : ChatEnv :=
  ⟨some "test-key", fun _ => .ok none, fun _ => .error ⟨some "boom"⟩, fun d => d⟩

/-- Witness for C6: on a concrete environment, both the falsy-id case and the
absent-document case return the empty string. -/
theorem buildReportSummary_safe_witness :
    buildReportSummary envNoDoc none = "" ∧ buildReportSummary envNoDoc (some "id1") = "" :=
  ⟨(buildReportSummary_safe envNoDoc none).1 rfl,
   (buildReportSummary_safe envNoDoc (some "id1")).2.2 rfl⟩

/-! ## Claim C1 — gateway error mapping -/

/-- A vendor error that indicates rate limiting (and does not mention
`API_KEY`). -/
def rateLimitError : JsError :=
  ⟨some "429 Too Many Requests: rate limit exceeded, please retry later"⟩

/-- An environment whose model call always fails with `rateLimitError`. -/
def envRateLimited : ChatEnv :=
  ⟨some "test-key", fun _ => .ok none, fun _ => .error rateLimitError, fun d => d⟩

/-- **C1, counterexample.** A vendor error whose message indicates rate
limiting is *re-raised* by `callGemini`, not mapped to a fixed
"high demand, try again" reply (no such mapping exists in the code): on a
concrete call the result is the re-raised exception and not a reply string. -/
theorem callGemini_rate_limit_reraised :
    errMentionsApiKey rateLimitError = false ∧
    strIncludes "429 Too Many Requests: rate limit exceeded, please retry later" "rate limit" = true ∧
    (callGemini envRateLimited "sys" "hello" []).1 = Except.error rateLimitError := by
  refine ⟨by decide, by decide, rfl⟩

/-- **C1, amended.** When the model call fails, `callGemini` maps the error to
the fixed invalid-key reply (which does not echo the credential) exactly when
the vendor message mentions `API_KEY`; every other failing call — including
rate limiting — re-raises the exception to the orchestrator. -/
theorem callGemini_error_mapping (env : ChatEnv) (sys up : String)
    (hist : List ChatMsg) (e : JsError)
    (h : env.generate ⟨sys, geminiContents hist up⟩ = .error e) :
    (errMentionsApiKey e = true → (callGemini env sys up hist).1 = .ok INVALID_KEY_REPLY) ∧
    (errMentionsApiKey e = false → (callGemini env sys up hist).1 = .error e) := by
  simp only [callGemini]
  rw [h]
  constructor <;> intro hm <;> simp [hm]

/-- A vendor error mentioning `API_KEY`. -/
def badKeyError : JsError := ⟨some "400 Bad Request: API_KEY not valid"⟩

/-- An environment whose model call always fails with `badKeyError`. -/
def envBadKey : ChatEnv :=
  ⟨some "test-key", fun _ => .ok none, fun _ => .error badKeyError, fun d => d⟩

/-- Witness for the amended C1: a concrete `API_KEY` vendor error is mapped to
the fixed invalid-key reply. -/
theorem callGemini_error_mapping_witness :
    (callGemini envBadKey "sys" "hello" []).1 = .ok INVALID_KEY_REPLY :=
  (callGemini_error_mapping envBadKey "sys" "hello" [] badKeyError rfl).1 (by decide)

/-! ## Claim C8 — source detection -/

/-- **C8.** `detectSources` on the message
`"my images are missing alt text and LCP is slow"` returns a list containing
both `seo` and `performance`; and any message firing none of the four module
regexes yields exactly `["overview"]`. -/
theorem detectSources_spec :
    ("performance" ∈ detectSources "my images are missing alt text and LCP is slow" ∧
     "seo" ∈ detectSources "my images are missing alt text and LCP is slow") ∧
    ∀ msg : String,
      wbTest PERF_SOURCE_WORDS (jsToLower msg).data = false →
      wbTest SEO_SOURCE_WORDS (jsToLower msg).data = false →
      wbTest UX_SOURCE_WORDS (jsToLower msg).data = false →
      wbTest CONTENT_SOURCE_WORDS (jsToLower msg).data = false →
      detectSources msg = ["overview"] := by
  constructor
  · have h : detectSources "my images are missing alt text and LCP is slow" =
        ["performance", "seo", "content"] := by decide
    rw [h]
    exact ⟨by decide, by decide⟩
  · intro msg h1 h2 h3 h4
    simp [detectSources, h1, h2, h3, h4]

/-- Witness for C8: the no-module-keyword message `"hii"` yields exactly
`["overview"]`. -/
theorem detectSources_spec_witness : detectSources "hii" = ["overview"] :=
  detectSources_spec.2 "hii" (by decide) (by decide) (by decide) (by decide)

/-! ## Claim C3 — ownership heuristic forces report intent -/

/-- **C3.** For every message whose lower-cased trimmed text matches both the
ownership-pronoun regex (`my|this|our|the` as whole words) and the subject
regex (`site|website|page|report|score|audit|grade` as whole words),
`detectIntent` returns `REPORT_INTENT` with confidence 0.95, for both values
of `hasReportId`. -/
theorem detectIntent_ownership (msg : String) (hasCtx : Bool)
    (h1 : wbTest OWNERSHIP_WORDS (jsTrimC (jsToLower msg).data) = true)
    (h2 : wbTest SUBJECT_WORDS (jsTrimC (jsToLower msg).data) = true) :
    detectIntent msg hasCtx = ⟨"REPORT_INTENT", 0.95⟩ := by
  have hown : hasOwnership (jsTrimC (jsToLower msg).data) = true := by
    unfold hasOwnership; rw [h1, h2]; rfl
  have h5 : 5 ≤ reportScoreOf (jsTrimC (jsToLower msg).data) hasCtx := by
    unfold reportScoreOf
    rw [hown]
    simp only [if_true]
    omega
  unfold detectIntent
  simp only [h5, if_pos]

/-- Witness for C3: `"Why is my score low?"` matches both regexes and is
classified `REPORT_INTENT` at 0.95 (with no report context). -/
theorem detectIntent_ownership_witness :
    detectIntent "Why is my score low?" false = ⟨"REPORT_INTENT", 0.95⟩ :=
  detectIntent_ownership "Why is my score low?" false (by decide) (by decide)

/-! ## Claim C4 — report intent without a report short-circuits -/

/-- **C4.** Whenever the credential is configured, the detected intent is
`REPORT_INTENT` and the report identifier is falsy, `chat` returns the fixed
"no report loaded" guidance reply with empty sources — and the gateway trace
is empty, i.e. the model gateway is never invoked on this path. -/
theorem chat_no_report_short_circuit (env : ChatEnv) (rid : Option String)
    (msg : String) (hist : List ChatMsg)
    (hkey : jsTruthyOpt env.geminiApiKey = true)
    (hintent : (detectIntent msg (jsTruthyOpt rid)).intent = "REPORT_INTENT")
    (hrid : jsTruthyOpt rid = false) :
    chat env rid msg hist = (⟨NO_REPORT_REPLY, "REPORT_INTENT", []⟩, []) := by
  rw [hrid] at hintent
  simp [chat, hkey, hrid, hintent]

/-- Environment with a configured key and stub collaborators, used by the
orchestrator witnesses. -/
def envStub : ChatEnv :=
  ⟨some "test-key", fun _ => .ok none, fun _ => .ok "model reply", fun d => d⟩

/-- Witness for C4: a concrete report-intent message with no report id hits
the short circuit and performs no gateway call. -/
theorem chat_no_report_short_circuit_witness :
    chat envStub none "Why is my score low?" [] = (⟨NO_REPORT_REPLY, "REPORT_INTENT", []⟩, []) :=
  chat_no_report_short_circuit envStub none "Why is my score low?" [] rfl (by decide) rfl

/-! ## Claim C5 — the orchestrator catches every handler exception -/

/-- **C5.** Every exception raised inside one of the three intent handlers
(context-fetch failure or a gateway re-raise) is caught by `chat` and turned
into the one fixed apologetic reply, with the already-detected intent
preserved and sources equal to the empty list; no such exception escapes. -/
theorem chat_catches_handler_errors (env : ChatEnv) (rid : Option String)
    (msg : String) (hist : List ChatMsg) (e : JsError)
    (hkey : jsTruthyOpt env.geminiApiKey = true) :
    ((detectIntent msg (jsTruthyOpt rid)).intent = "REPORT_INTENT" →
      jsTruthyOpt rid = true →
      (handleReportIntent env (rid.getD "") msg hist).1 = .error e →
      (chat env rid msg hist).1 = ⟨APOLOGY_REPLY, "REPORT_INTENT", []⟩) ∧
    ((detectIntent msg (jsTruthyOpt rid)).intent = "WEBSITE_CONCEPT_INTENT" →
      (handleConceptIntent env rid msg hist).1 = .error e →
      (chat env rid msg hist).1 = ⟨APOLOGY_REPLY, "WEBSITE_CONCEPT_INTENT", []⟩) ∧
    ((detectIntent msg (jsTruthyOpt rid)).intent ≠ "REPORT_INTENT" →
      (detectIntent msg (jsTruthyOpt rid)).intent ≠ "WEBSITE_CONCEPT_INTENT" →
      (handleGeneralIntent env msg hist).1 = .error e →
      (chat env rid msg hist).1 =
        ⟨APOLOGY_REPLY, (detectIntent msg (jsTruthyOpt rid)).intent, []⟩) := by
  refine ⟨fun hi hrid herr => ?_, fun hi herr => ?_, fun hn1 hn2 herr => ?_⟩
  · rw [hrid] at hi
    rcases hRI : handleReportIntent env (rid.getD "") msg hist with ⟨res, tr⟩
    rw [hRI] at herr; simp only at herr; subst herr
    simp [chat, hkey, hi, hrid, hRI]
  · rcases hC : handleConceptIntent env rid msg hist with ⟨res, tr⟩
    rw [hC] at herr; simp only at herr; subst herr
    simp [chat, hkey, hi, hC]
  · rcases hG : handleGeneralIntent env msg hist with ⟨res, tr⟩
    rw [hG] at herr; simp only at herr; subst herr
    simp [chat, hkey, hn1, hn2, hG]

/-- Environment whose gateway always throws a non-`API_KEY` error. -/
def envThrowing : ChatEnv :=
  ⟨some "test-key", fun _ => .ok none, fun _ => .error ⟨some "boom"⟩, fun d => d⟩

/-- Witness for C5: on a concrete greeting (general intent) whose gateway call
throws, `chat` returns the apology with the detected intent and no sources. -/
theorem chat_catches_handler_errors_witness :
    (chat envThrowing none "hello there" []).1 = ⟨APOLOGY_REPLY, "GENERAL_INTENT", []⟩ := by
  have h := (chat_catches_handler_errors envThrowing none "hello there" [] ⟨some "boom"⟩ rfl).2.2
    (by decide) (by decide) rfl
  simpa using h

/-! ## Claim C10 — only a successful report run yields sources -/

/-- **C10.** The orchestrator returns an empty sources list on the
no-credential path and whenever the detected intent is not `REPORT_INTENT`
(i.e. for `WEBSITE_CONCEPT_INTENT` and `GENERAL_INTENT`); conversely a
non-empty sources list can only arise with the credential configured, intent
`REPORT_INTENT`, a truthy report identifier, and a successful
`handleReportIntent` run producing exactly those sources. -/
theorem chat_sources_only_report (env : ChatEnv) (rid : Option String)
    (msg : String) (hist : List ChatMsg) :
    (jsTruthyOpt env.geminiApiKey = false → (chat env rid msg hist).1.sources = []) ∧
    ((detectIntent msg (jsTruthyOpt rid)).intent ≠ "REPORT_INTENT" →
      (chat env rid msg hist).1.sources = []) ∧
    ((chat env rid msg hist).1.sources ≠ [] →
      jsTruthyOpt env.geminiApiKey = true ∧
      (detectIntent msg (jsTruthyOpt rid)).intent = "REPORT_INTENT" ∧
      jsTruthyOpt rid = true ∧
      ∃ reply tr, handleReportIntent env (rid.getD "") msg hist =
        (.ok (reply, (chat env rid msg hist).1.sources), tr)) := by
  by_cases hkey : jsTruthyOpt env.geminiApiKey = true
  · refine ⟨fun hfalse => ?_, fun hn => ?_, fun hs => ?_⟩
    · rw [hfalse] at hkey; exact Bool.noConfusion hkey
    · by_cases hc : (detectIntent msg (jsTruthyOpt rid)).intent = "WEBSITE_CONCEPT_INTENT"
      · rcases hC : handleConceptIntent env rid msg hist with ⟨res, tr⟩
        cases res <;> simp [chat, hkey, hn, hc, hC]
      · rcases hG : handleGeneralIntent env msg hist with ⟨res, tr⟩
        cases res <;> simp [chat, hkey, hn, hc, hG]
    · by_cases hi : (detectIntent msg (jsTruthyOpt rid)).intent = "REPORT_INTENT"
      · by_cases hrid : jsTruthyOpt rid = true
        · have hi2 := hi
          rw [hrid] at hi2
          rcases hRI : handleReportIntent env (rid.getD "") msg hist with ⟨res, tr⟩
          cases res with
          | ok pr =>
              obtain ⟨reply, srcs⟩ := pr
              have hchat : chat env rid msg hist = (⟨reply, "REPORT_INTENT", srcs⟩, tr) := by
                simp [chat, hkey, hi2, hrid, hRI]
              rw [hchat]
              exact ⟨hkey, hi, hrid, reply, tr, rfl⟩
          | error err =>
              exfalso; apply hs
              simp [chat, hkey, hi2, hrid, hRI]
        · exfalso; apply hs
          have hrid' : jsTruthyOpt rid = false := by
            cases h : jsTruthyOpt rid
            · rfl
            · exact absurd h hrid
          rw [hrid'] at hi
          simp [chat, hkey, hi, hrid']
      · exfalso; apply hs
        by_cases hc : (detectIntent msg (jsTruthyOpt rid)).intent = "WEBSITE_CONCEPT_INTENT"
        · rcases hC : handleConceptIntent env rid msg hist with ⟨res, tr⟩
          cases res <;> simp [chat, hkey, hi, hc, hC]
        · rcases hG : handleGeneralIntent env msg hist with ⟨res, tr⟩
          cases res <;> simp [chat, hkey, hi, hc, hG]
  · have hkey' : jsTruthyOpt env.geminiApiKey = false := by
      cases h : jsTruthyOpt env.geminiApiKey
      · rfl
      · exact absurd h hkey
    refine ⟨fun _ => by simp [chat, hkey'], fun _ => by simp [chat, hkey'],
      fun hs => absurd (by simp [chat, hkey']) hs⟩

/-- Witness for C10: a concrete concept question returns empty sources. -/
theorem chat_sources_only_report_witness :
    (chat envStub none "What is LCP?" []).1.sources = [] :=
  (chat_sources_only_report envStub none "What is LCP?" []).2.1 (by decide)

/-! ## Claim C2 — metric lines and `N/A` rendering -/

/-- A UX module document with every field missing. -/
def uxAllMissing : UXData := ⟨none, none, none, none, none, none, none, none, [], [], []⟩

/-- A UX module whose `violations_by_impact` object is present but whose
`critical` count is missing. -/
def uxImpactPartial : UXData :=
  ⟨none, none, none, none, some 2, some ⟨none, some 2, none, none⟩, none, none, [], [], []⟩

/-- A performance module document with every field missing. -/
def perfAllMissing : PerfData := ⟨none, none, none, none, [], [], []⟩

/-- An SEO module document with every field missing. -/
def seoAllMissing : SEOData :=
  ⟨none, none, none, none, none, none, none, none, none, none, [], [], []⟩

/-- A content module document with every field missing. -/
def contentAllMissing : ContentData :=
  ⟨none, none, none, none, none, none, none, [], [], [], []⟩

/-- A report document with no aggregator, modules, insights or dates. -/
def reportBare : Report := ⟨"https://example.com", none, none, none, none, none⟩

/-- A report whose aggregator is present but whose `health_grade` is null. -/
def reportAggNoGrade : Report :=
  ⟨"https://example.com", none, none, some ⟨some 77, none, some "HIGH", none, [], none⟩,
   none, none⟩

/-- **C2, counterexample.** Missing count-valued metric fields do *not*
render as `N/A`: on the all-missing UX document the formatter emits
`"  - Total Violations: 0"` (and `0` for the per-impact counts), the content
formatter emits `"  - Keywords Found: 0"`, and no `N/A` rendering of those
lines exists anywhere in the sections. -/
theorem formatUX_missing_counts_render_zero :
    "  - Total Violations: 0" ∈ formatUXLines uxAllMissing ∧
    "  - Total Violations: N/A" ∉ formatUXLines uxAllMissing ∧
    "  - Critical Violations: 0" ∈ formatUXLines uxAllMissing ∧
    "  - Critical Violations: N/A" ∉ formatUXLines uxAllMissing ∧
    "  - Keywords Found: 0" ∈ formatContentLines contentAllMissing ∧
    "  - Keywords Found: N/A" ∉ formatContentLines contentAllMissing := by
  decide

set_option maxHeartbeats 1000000 in
/-- **C2, amended.** Every metric line of every module formatter and of the
overview is always present (one line per metric, whatever the document), and
every missing or null metric field renders as the literal `N/A` — except the
count-valued fields that default to a number: the UX module's violation
counts (total and per-impact) and the content module's keywords count render
as the literal `0` when missing, and the overview's dominant-risk-domains
line renders `None` when empty or absent. -/
theorem format_missing_fields (dfmt : String → String) (r : Report) (ux : UXData)
    (perf : PerfData) (seo : SEOData) (c : ContentData) :
    ( -- UX module
     ((formatUXLines ux)[5]? = some "Key Metrics:") ∧
     (∃ v, (formatUXLines ux)[6]? = some ("  - Total Violations: " ++ v)) ∧
     (∃ v, (formatUXLines ux)[7]? = some ("  - Critical Violations: " ++ v)) ∧
     (∃ v, (formatUXLines ux)[8]? = some ("  - Serious Violations: " ++ v)) ∧
     (∃ v, (formatUXLines ux)[9]? = some ("  - Moderate Violations: " ++ v)) ∧
     (∃ v, (formatUXLines ux)[10]? = some ("  - Minor Violations: " ++ v)) ∧
     (∃ v, (formatUXLines ux)[11]? = some ("  - Total CTAs: " ++ v)) ∧
     (∃ v, (formatUXLines ux)[12]? = some ("  - CTAs Above Fold: " ++ v)) ∧
     (ux.score = none → (formatUXLines ux)[0]? = some "## UX & ACCESSIBILITY MODULE (Score: N/A/100)") ∧
     (ux.accessibility_risk_level = none → (formatUXLines ux)[1]? = some "Accessibility Risk Level: N/A") ∧
     (ux.trust_impact_indicator = none → (formatUXLines ux)[2]? = some "Trust Impact: N/A") ∧
     (ux.recommendation_flag = none → (formatUXLines ux)[3]? = some "Recommendation: N/A") ∧
     (ux.ctas_count = none → (formatUXLines ux)[11]? = some "  - Total CTAs: N/A") ∧
     (ux.ctas_above_fold = none → (formatUXLines ux)[12]? = some "  - CTAs Above Fold: N/A") ∧
     (ux.violations_count = none → (formatUXLines ux)[6]? = some "  - Total Violations: 0") ∧
     ((ux.violations_by_impact.getD emptyByImpact).critical = none → (formatUXLines ux)[7]? = some "  - Critical Violations: 0") ∧
     ((ux.violations_by_impact.getD emptyByImpact).serious = none → (formatUXLines ux)[8]? = some "  - Serious Violations: 0") ∧
     ((ux.violations_by_impact.getD emptyByImpact).moderate = none → (formatUXLines ux)[9]? = some "  - Moderate Violations: 0") ∧
     ((ux.violations_by_impact.getD emptyByImpact).minor = none → (formatUXLines ux)[10]? = some "  - Minor Violations: 0")) ∧
    ( -- performance module
     ((formatPerformanceLines perf)[4]? = some "Key Metrics:") ∧
     (∃ v, (formatPerformanceLines perf)[5]? = some ("  - LCP (Largest Contentful Paint): " ++ v ++ " (good: <2.5s, bad: >4.0s)")) ∧
     (∃ v, (formatPerformanceLines perf)[6]? = some ("  - CLS (Cumulative Layout Shift): " ++ v ++ " (good: <0.1, bad: >0.25)")) ∧
     (∃ v, (formatPerformanceLines perf)[7]? = some ("  - FCP (First Contentful Paint): " ++ v ++ " (good: <1.8s, bad: >3.0s)")) ∧
     (∃ v, (formatPerformanceLines perf)[8]? = some ("  - TTFB (Time to First Byte): " ++ v ++ " (good: <0.8s, bad: >1.8s)")) ∧
     (∃ v, (formatPerformanceLines perf)[9]? = some ("  - TBT (Total Blocking Time): " ++ v ++ " (good: <200ms, bad: >600ms)")) ∧
     (∃ v, (formatPerformanceLines perf)[10]? = some ("  - Total JS Size: " ++ v)) ∧
     (∃ v, (formatPerformanceLines perf)[11]? = some ("  - Total CSS Size: " ++ v)) ∧
     (∃ v, (formatPerformanceLines perf)[12]? = some ("  - Total Image Size: " ++ v)) ∧
     (∃ v, (formatPerformanceLines perf)[13]? = some ("  - Total Requests: " ++ v)) ∧
     (perf.score = none → (formatPerformanceLines perf)[0]? = some "## PERFORMANCE MODULE (Score: N/A/100)") ∧
     (perf.confidence = none → (formatPerformanceLines perf)[1]? = some "Confidence: N/A") ∧
     (perf.recommendation_flag = none → (formatPerformanceLines perf)[2]? = some "Recommendation: N/A") ∧
     ((perf.metrics.getD emptyPerfMetrics).lcp_s = none → (formatPerformanceLines perf)[5]? = some "  - LCP (Largest Contentful Paint): N/A (good: <2.5s, bad: >4.0s)") ∧
     ((perf.metrics.getD emptyPerfMetrics).cls = none → (formatPerformanceLines perf)[6]? = some "  - CLS (Cumulative Layout Shift): N/A (good: <0.1, bad: >0.25)") ∧
     ((perf.metrics.getD emptyPerfMetrics).fcp_s = none → (formatPerformanceLines perf)[7]? = some "  - FCP (First Contentful Paint): N/A (good: <1.8s, bad: >3.0s)") ∧
     ((perf.metrics.getD emptyPerfMetrics).ttfb_s = none → (formatPerformanceLines perf)[8]? = some "  - TTFB (Time to First Byte): N/A (good: <0.8s, bad: >1.8s)") ∧
     ((perf.metrics.getD emptyPerfMetrics).tbt_ms = none → (formatPerformanceLines perf)[9]? = some "  - TBT (Total Blocking Time): N/A (good: <200ms, bad: >600ms)") ∧
     ((perf.metrics.getD emptyPerfMetrics).total_js_kb = none → (formatPerformanceLines perf)[10]? = some "  - Total JS Size: N/A") ∧
     ((perf.metrics.getD emptyPerfMetrics).total_css_kb = none → (formatPerformanceLines perf)[11]? = some "  - Total CSS Size: N/A") ∧
     ((perf.metrics.getD emptyPerfMetrics).total_images_kb = none → (formatPerformanceLines perf)[12]? = some "  - Total Image Size: N/A") ∧
     ((perf.metrics.getD emptyPerfMetrics).total_requests = none → (formatPerformanceLines perf)[13]? = some "  - Total Requests: N/A")) ∧
    ( -- SEO module
     ((formatSEOLines seo)[5]? = some "Key Metrics:") ∧
     (∃ v, (formatSEOLines seo)[6]? = some ("  - Title Length: " ++ v ++ " chars (ideal: 30-60)")) ∧
     (∃ v, (formatSEOLines seo)[7]? = some ("  - Meta Description Length: " ++ v ++ " chars (ideal: 120-160)")) ∧
     (∃ v, (formatSEOLines seo)[8]? = some ("  - H1 Count: " ++ v ++ " (ideal: exactly 1)")) ∧
     (∃ v, (formatSEOLines seo)[9]? = some ("  - Images Missing Alt Text: " ++ v)) ∧
     (∃ v, (formatSEOLines seo)[10]? = some ("  - Internal Links: " ++ v)) ∧
     (∃ v, (formatSEOLines seo)[11]? = some ("  - External Links: " ++ v)) ∧
     (seo.score = none → (formatSEOLines seo)[0]? = some "## SEO MODULE (Score: N/A/100)") ∧
     (seo.indexability_status = none → (formatSEOLines seo)[1]? = some "Indexability Status: N/A") ∧
     (seo.crawl_health_indicator = none → (formatSEOLines seo)[2]? = some "Crawl Health: N/A") ∧
     (seo.recommendation_flag = none → (formatSEOLines seo)[3]? = some "Recommendation: N/A") ∧
     (seo.title_length = none → (formatSEOLines seo)[6]? = some "  - Title Length: N/A chars (ideal: 30-60)") ∧
     (seo.meta_description_length = none → (formatSEOLines seo)[7]? = some "  - Meta Description Length: N/A chars (ideal: 120-160)") ∧
     (seo.h1_count = none → (formatSEOLines seo)[8]? = some "  - H1 Count: N/A (ideal: exactly 1)") ∧
     (seo.images_missing_alt_count = none → (formatSEOLines seo)[9]? = some "  - Images Missing Alt Text: N/A") ∧
     (seo.internal_links_count = none → (formatSEOLines seo)[10]? = some "  - Internal Links: N/A") ∧
     (seo.external_links_count = none → (formatSEOLines seo)[11]? = some "  - External Links: N/A")) ∧
    ( -- content module
     ((formatContentLines c)[5]? = some "Key Metrics:") ∧
     (∃ v, (formatContentLines c)[6]? = some ("  - Word Count: " ++ v ++ " (ideal: >300, good: >800)")) ∧
     (∃ v, (formatContentLines c)[7]? = some ("  - Flesch Reading Ease: " ++ v ++ " (higher = easier to read)")) ∧
     (∃ v, (formatContentLines c)[8]? = some ("  - Flesch-Kincaid Grade Level: " ++ v)) ∧
     (∃ v, (formatContentLines c)[9]? = some ("  - Keywords Found: " ++ v)) ∧
     (c.score = none → (formatContentLines c)[0]? = some "## CONTENT QUALITY MODULE (Score: N/A/100)") ∧
     (c.intent_match_level = none → (formatContentLines c)[1]? = some "Intent Match Level: N/A") ∧
     (c.content_depth_status = none → (formatContentLines c)[2]? = some "Content Depth Status: N/A") ∧
     (c.recommendation_flag = none → (formatContentLines c)[3]? = some "Recommendation: N/A") ∧
     (c.word_count = none → (formatContentLines c)[6]? = some "  - Word Count: N/A (ideal: >300, good: >800)") ∧
     (c.flesch_reading_ease = none → (formatContentLines c)[7]? = some "  - Flesch Reading Ease: N/A (higher = easier to read)") ∧
     (c.flesch_kincaid_grade = none → (formatContentLines c)[8]? = some "  - Flesch-Kincaid Grade Level: N/A") ∧
     (c.keywords = [] → (formatContentLines c)[9]? = some "  - Keywords Found: 0")) ∧
    ( -- overview
     (∃ v, (formatOverviewLines dfmt r)[1]? = some ("URL: " ++ v)) ∧
     (∃ v, (formatOverviewLines dfmt r)[2]? = some ("Overall Health Score: " ++ v ++ " / 100")) ∧
     (∃ v, (formatOverviewLines dfmt r)[3]? = some ("Health Grade: " ++ v)) ∧
     (∃ v, (formatOverviewLines dfmt r)[4]? = some ("Overall Risk Level: " ++ v)) ∧
     (∃ v, (formatOverviewLines dfmt r)[5]? = some ("Action Recommendation: " ++ v)) ∧
     (∃ v, (formatOverviewLines dfmt r)[6]? = some ("Dominant Risk Domains: " ++ v)) ∧
     ((formatOverviewLines dfmt r)[7]? = some "Module Scores:") ∧
     (∃ v, (formatOverviewLines dfmt r)[8]? = some ("  - Performance: " ++ v ++ "/100")) ∧
     (∃ v, (formatOverviewLines dfmt r)[9]? = some ("  - SEO: " ++ v ++ "/100")) ∧
     (∃ v, (formatOverviewLines dfmt r)[10]? = some ("  - UX & Accessibility: " ++ v ++ "/100")) ∧
     (∃ v, (formatOverviewLines dfmt r)[11]? = some ("  - Content Quality: " ++ v ++ "/100")) ∧
     (∃ v, (formatOverviewLines dfmt r)[12]? = some ("Analysis Date: " ++ v)) ∧
     ((r.aggregator.getD emptyAggregator).website_health_score = none → (formatOverviewLines dfmt r)[2]? = some "Overall Health Score: N/A / 100") ∧
     ((r.aggregator.getD emptyAggregator).health_grade = none → (formatOverviewLines dfmt r)[3]? = some "Health Grade: N/A") ∧
     ((r.aggregator.getD emptyAggregator).overall_risk_level = none → (formatOverviewLines dfmt r)[4]? = some "Overall Risk Level: N/A") ∧
     ((r.aggregator.getD emptyAggregator).action_recommendation_flag = none → (formatOverviewLines dfmt r)[5]? = some "Action Recommendation: N/A") ∧
     ((r.aggregator.getD emptyAggregator).dominant_risk_domains = [] → (formatOverviewLines dfmt r)[6]? = some "Dominant Risk Domains: None") ∧
     (((r.aggregator.getD emptyAggregator).module_scores.getD emptyModuleScores).performance = none → (formatOverviewLines dfmt r)[8]? = some "  - Performance: N/A/100") ∧
     (((r.aggregator.getD emptyAggregator).module_scores.getD emptyModuleScores).seo = none → (formatOverviewLines dfmt r)[9]? = some "  - SEO: N/A/100") ∧
     (((r.aggregator.getD emptyAggregator).module_scores.getD emptyModuleScores).ux = none → (formatOverviewLines dfmt r)[10]? = some "  - UX & Accessibility: N/A/100") ∧
     (((r.aggregator.getD emptyAggregator).module_scores.getD emptyModuleScores).content = none → (formatOverviewLines dfmt r)[11]? = some "  - Content Quality: N/A/100") ∧
     (jsTruthyOpt r.created_at = false → (formatOverviewLines dfmt r)[12]? = some "Analysis Date: N/A")) := by
  refine ⟨⟨?_, ?_, ?_, ?_, ?_, ?_, ?_, ?_, ?_, ?_, ?_, ?_, ?_, ?_, ?_, ?_, ?_, ?_, ?_⟩, ⟨?_, ?_, ?_, ?_, ?_, ?_, ?_, ?_, ?_, ?_, ?_, ?_, ?_, ?_, ?_, ?_, ?_, ?_, ?_, ?_, ?_, ?_⟩, ⟨?_, ?_, ?_, ?_, ?_, ?_, ?_, ?_, ?_, ?_, ?_, ?_, ?_, ?_, ?_, ?_, ?_⟩, ⟨?_, ?_, ?_, ?_, ?_, ?_, ?_, ?_, ?_, ?_, ?_, ?_, ?_⟩, ⟨?_, ?_, ?_, ?_, ?_, ?_, ?_, ?_, ?_, ?_, ?_, ?_, ?_, ?_, ?_, ?_, ?_, ?_, ?_, ?_, ?_, ?_⟩⟩
  · exact rfl
  · exact ⟨showIntD0 ux.violations_count, rfl⟩
  · exact ⟨showIntD0 (ux.violations_by_impact.getD emptyByImpact).critical, rfl⟩
  · exact ⟨showIntD0 (ux.violations_by_impact.getD emptyByImpact).serious, rfl⟩
  · exact ⟨showIntD0 (ux.violations_by_impact.getD emptyByImpact).moderate, rfl⟩
  · exact ⟨showIntD0 (ux.violations_by_impact.getD emptyByImpact).minor, rfl⟩
  · exact ⟨showIntNA ux.ctas_count, rfl⟩
  · refine ⟨showIntNA ux.ctas_above_fold, ?_⟩
    simp [formatUXLines]
  · intro h
    have e : (formatUXLines ux)[0]? = some ("## UX & ACCESSIBILITY MODULE (Score: " ++ showIntNA ux.score ++ "/100)") := rfl
    rw [e, h]; rfl
  · intro h
    have e : (formatUXLines ux)[1]? = some ("Accessibility Risk Level: " ++ ux.accessibility_risk_level.getD "N/A") := rfl
    rw [e, h]; rfl
  · intro h
    have e : (formatUXLines ux)[2]? = some ("Trust Impact: " ++ ux.trust_impact_indicator.getD "N/A") := rfl
    rw [e, h]; rfl
  · intro h
    have e : (formatUXLines ux)[3]? = some ("Recommendation: " ++ flagNA ux.recommendation_flag) := rfl
    rw [e, h]; rfl
  · intro h
    have e : (formatUXLines ux)[11]? = some ("  - Total CTAs: " ++ showIntNA ux.ctas_count) := rfl
    rw [e, h]; rfl
  · intro h
    simp [formatUXLines, h, showIntNA]
  · intro h
    have e : (formatUXLines ux)[6]? = some ("  - Total Violations: " ++ showIntD0 ux.violations_count) := rfl
    rw [e, h]; rfl
  · intro h
    have e : (formatUXLines ux)[7]? = some ("  - Critical Violations: " ++ showIntD0 (ux.violations_by_impact.getD emptyByImpact).critical) := rfl
    rw [e, h]; rfl
  · intro h
    have e : (formatUXLines ux)[8]? = some ("  - Serious Violations: " ++ showIntD0 (ux.violations_by_impact.getD emptyByImpact).serious) := rfl
    rw [e, h]; rfl
  · intro h
    have e : (formatUXLines ux)[9]? = some ("  - Moderate Violations: " ++ showIntD0 (ux.violations_by_impact.getD emptyByImpact).moderate) := rfl
    rw [e, h]; rfl
  · intro h
    have e : (formatUXLines ux)[10]? = some ("  - Minor Violations: " ++ showIntD0 (ux.violations_by_impact.getD emptyByImpact).minor) := rfl
    rw [e, h]; rfl
  · exact rfl
  · exact ⟨optSuffix (perf.metrics.getD emptyPerfMetrics).lcp_s "s", rfl⟩
  · exact ⟨(perf.metrics.getD emptyPerfMetrics).cls.getD "N/A", rfl⟩
  · exact ⟨optSuffix (perf.metrics.getD emptyPerfMetrics).fcp_s "s", rfl⟩
  · exact ⟨optSuffix (perf.metrics.getD emptyPerfMetrics).ttfb_s "s", rfl⟩
  · exact ⟨optSuffix (perf.metrics.getD emptyPerfMetrics).tbt_ms "ms", rfl⟩
  · exact ⟨optSuffix (perf.metrics.getD emptyPerfMetrics).total_js_kb " KB", rfl⟩
  · exact ⟨optSuffix (perf.metrics.getD emptyPerfMetrics).total_css_kb " KB", rfl⟩
  · refine ⟨optSuffix (perf.metrics.getD emptyPerfMetrics).total_images_kb " KB", ?_⟩
    simp [formatPerformanceLines]
  · refine ⟨(perf.metrics.getD emptyPerfMetrics).total_requests.getD "N/A", ?_⟩
    simp [formatPerformanceLines]
  · intro h
    have e : (formatPerformanceLines perf)[0]? = some ("## PERFORMANCE MODULE (Score: " ++ showIntNA perf.score ++ "/100)") := rfl
    rw [e, h]; rfl
  · intro h
    have e : (formatPerformanceLines perf)[1]? = some ("Confidence: " ++ perf.confidence.getD "N/A") := rfl
    rw [e, h]; rfl
  · intro h
    have e : (formatPerformanceLines perf)[2]? = some ("Recommendation: " ++ flagNA perf.recommendation_flag) := rfl
    rw [e, h]; rfl
  · intro h
    have e : (formatPerformanceLines perf)[5]? = some ("  - LCP (Largest Contentful Paint): " ++ optSuffix (perf.metrics.getD emptyPerfMetrics).lcp_s "s" ++ " (good: <2.5s, bad: >4.0s)") := rfl
    rw [e, h]; rfl
  · intro h
    have e : (formatPerformanceLines perf)[6]? = some ("  - CLS (Cumulative Layout Shift): " ++ (perf.metrics.getD emptyPerfMetrics).cls.getD "N/A" ++ " (good: <0.1, bad: >0.25)") := rfl
    rw [e, h]; rfl
  · intro h
    have e : (formatPerformanceLines perf)[7]? = some ("  - FCP (First Contentful Paint): " ++ optSuffix (perf.metrics.getD emptyPerfMetrics).fcp_s "s" ++ " (good: <1.8s, bad: >3.0s)") := rfl
    rw [e, h]; rfl
  · intro h
    have e : (formatPerformanceLines perf)[8]? = some ("  - TTFB (Time to First Byte): " ++ optSuffix (perf.metrics.getD emptyPerfMetrics).ttfb_s "s" ++ " (good: <0.8s, bad: >1.8s)") := rfl
    rw [e, h]; rfl
  · intro h
    have e : (formatPerformanceLines perf)[9]? = some ("  - TBT (Total Blocking Time): " ++ optSuffix (perf.metrics.getD emptyPerfMetrics).tbt_ms "ms" ++ " (good: <200ms, bad: >600ms)") := rfl
    rw [e, h]; rfl
  · intro h
    have e : (formatPerformanceLines perf)[10]? = some ("  - Total JS Size: " ++ optSuffix (perf.metrics.getD emptyPerfMetrics).total_js_kb " KB") := rfl
    rw [e, h]; rfl
  · intro h
    have e : (formatPerformanceLines perf)[11]? = some ("  - Total CSS Size: " ++ optSuffix (perf.metrics.getD emptyPerfMetrics).total_css_kb " KB") := rfl
    rw [e, h]; rfl
  · intro h
    simp [formatPerformanceLines, h, optSuffix]
  · intro h
    simp [formatPerformanceLines, h]
  · exact rfl
  · exact ⟨showIntNA seo.title_length, rfl⟩
  · exact ⟨showIntNA seo.meta_description_length, rfl⟩
  · exact ⟨showIntNA seo.h1_count, rfl⟩
  · exact ⟨showIntNA seo.images_missing_alt_count, rfl⟩
  · exact ⟨showIntNA seo.internal_links_count, rfl⟩
  · refine ⟨showIntNA seo.external_links_count, ?_⟩
    simp [formatSEOLines]
  · intro h
    have e : (formatSEOLines seo)[0]? = some ("## SEO MODULE (Score: " ++ showIntNA seo.score ++ "/100)") := rfl
    rw [e, h]; rfl
  · intro h
    have e : (formatSEOLines seo)[1]? = some ("Indexability Status: " ++ seo.indexability_status.getD "N/A") := rfl
    rw [e, h]; rfl
  · intro h
    have e : (formatSEOLines seo)[2]? = some ("Crawl Health: " ++ seo.crawl_health_indicator.getD "N/A") := rfl
    rw [e, h]; rfl
  · intro h
    have e : (formatSEOLines seo)[3]? = some ("Recommendation: " ++ flagNA seo.recommendation_flag) := rfl
    rw [e, h]; rfl
  · intro h
    have e : (formatSEOLines seo)[6]? = some ("  - Title Length: " ++ showIntNA seo.title_length ++ " chars (ideal: 30-60)") := rfl
    rw [e, h]; rfl
  · intro h
    have e : (formatSEOLines seo)[7]? = some ("  - Meta Description Length: " ++ showIntNA seo.meta_description_length ++ " chars (ideal: 120-160)") := rfl
    rw [e, h]; rfl
  · intro h
    have e : (formatSEOLines seo)[8]? = some ("  - H1 Count: " ++ showIntNA seo.h1_count ++ " (ideal: exactly 1)") := rfl
    rw [e, h]; rfl
  · intro h
    have e : (formatSEOLines seo)[9]? = some ("  - Images Missing Alt Text: " ++ showIntNA seo.images_missing_alt_count) := rfl
    rw [e, h]; rfl
  · intro h
    have e : (formatSEOLines seo)[10]? = some ("  - Internal Links: " ++ showIntNA seo.internal_links_count) := rfl
    rw [e, h]; rfl
  · intro h
    simp [formatSEOLines, h, showIntNA]
  · exact rfl
  · exact ⟨showIntNA c.word_count, rfl⟩
  · exact ⟨optFixed1 c.flesch_reading_ease, rfl⟩
  · exact ⟨optFixed1 c.flesch_kincaid_grade, rfl⟩
  · refine ⟨toString c.keywords.length, ?_⟩
    simp [formatContentLines]
  · intro h
    have e : (formatContentLines c)[0]? = some ("## CONTENT QUALITY MODULE (Score: " ++ showIntNA c.score ++ "/100)") := rfl
    rw [e, h]; rfl
  · intro h
    have e : (formatContentLines c)[1]? = some ("Intent Match Level: " ++ c.intent_match_level.getD "N/A") := rfl
    rw [e, h]; rfl
  · intro h
    have e : (formatContentLines c)[2]? = some ("Content Depth Status: " ++ c.content_depth_status.getD "N/A") := rfl
    rw [e, h]; rfl
  · intro h
    have e : (formatContentLines c)[3]? = some ("Recommendation: " ++ flagNA c.recommendation_flag) := rfl
    rw [e, h]; rfl
  · intro h
    have e : (formatContentLines c)[6]? = some ("  - Word Count: " ++ showIntNA c.word_count ++ " (ideal: >300, good: >800)") := rfl
    rw [e, h]; rfl
  · intro h
    have e : (formatContentLines c)[7]? = some ("  - Flesch Reading Ease: " ++ optFixed1 c.flesch_reading_ease ++ " (higher = easier to read)") := rfl
    rw [e, h]; rfl
  · intro h
    have e : (formatContentLines c)[8]? = some ("  - Flesch-Kincaid Grade Level: " ++ optFixed1 c.flesch_kincaid_grade) := rfl
    rw [e, h]; rfl
  · intro h
    simp [formatContentLines, h]
    rfl
  · exact ⟨jsOrStr r.final_url r.url, rfl⟩
  · exact ⟨showIntNA (r.aggregator.getD emptyAggregator).website_health_score, rfl⟩
  · exact ⟨(r.aggregator.getD emptyAggregator).health_grade.getD "N/A", rfl⟩
  · exact ⟨(r.aggregator.getD emptyAggregator).overall_risk_level.getD "N/A", rfl⟩
  · exact ⟨flagNA (r.aggregator.getD emptyAggregator).action_recommendation_flag, rfl⟩
  · exact ⟨jsOrEmpty (String.intercalate ", " (r.aggregator.getD emptyAggregator).dominant_risk_domains) "None", rfl⟩
  · exact rfl
  · exact ⟨showIntNA ((r.aggregator.getD emptyAggregator).module_scores.getD emptyModuleScores).performance, rfl⟩
  · exact ⟨showIntNA ((r.aggregator.getD emptyAggregator).module_scores.getD emptyModuleScores).seo, rfl⟩
  · exact ⟨showIntNA ((r.aggregator.getD emptyAggregator).module_scores.getD emptyModuleScores).ux, rfl⟩
  · exact ⟨showIntNA ((r.aggregator.getD emptyAggregator).module_scores.getD emptyModuleScores).content, rfl⟩
  · refine ⟨(if jsTruthyOpt r.created_at then dfmt (r.created_at.getD "") else "N/A"), ?_⟩
    simp [formatOverviewLines]
  · intro h
    have e : (formatOverviewLines dfmt r)[2]? = some ("Overall Health Score: " ++ showIntNA (r.aggregator.getD emptyAggregator).website_health_score ++ " / 100") := rfl
    rw [e, h]; rfl
  · intro h
    have e : (formatOverviewLines dfmt r)[3]? = some ("Health Grade: " ++ (r.aggregator.getD emptyAggregator).health_grade.getD "N/A") := rfl
    rw [e, h]; rfl
  · intro h
    have e : (formatOverviewLines dfmt r)[4]? = some ("Overall Risk Level: " ++ (r.aggregator.getD emptyAggregator).overall_risk_level.getD "N/A") := rfl
    rw [e, h]; rfl
  · intro h
    have e : (formatOverviewLines dfmt r)[5]? = some ("Action Recommendation: " ++ flagNA (r.aggregator.getD emptyAggregator).action_recommendation_flag) := rfl
    rw [e, h]; rfl
  · intro h
    have e : (formatOverviewLines dfmt r)[6]? = some ("Dominant Risk Domains: " ++ jsOrEmpty (String.intercalate ", " (r.aggregator.getD emptyAggregator).dominant_risk_domains) "None") := rfl
    rw [e, h]; rfl
  · intro h
    have e : (formatOverviewLines dfmt r)[8]? = some ("  - Performance: " ++ showIntNA ((r.aggregator.getD emptyAggregator).module_scores.getD emptyModuleScores).performance ++ "/100") := rfl
    rw [e, h]; rfl
  · intro h
    have e : (formatOverviewLines dfmt r)[9]? = some ("  - SEO: " ++ showIntNA ((r.aggregator.getD emptyAggregator).module_scores.getD emptyModuleScores).seo ++ "/100") := rfl
    rw [e, h]; rfl
  · intro h
    have e : (formatOverviewLines dfmt r)[10]? = some ("  - UX & Accessibility: " ++ showIntNA ((r.aggregator.getD emptyAggregator).module_scores.getD emptyModuleScores).ux ++ "/100") := rfl
    rw [e, h]; rfl
  · intro h
    have e : (formatOverviewLines dfmt r)[11]? = some ("  - Content Quality: " ++ showIntNA ((r.aggregator.getD emptyAggregator).module_scores.getD emptyModuleScores).content ++ "/100") := rfl
    rw [e, h]; rfl
  · intro h
    simp [formatOverviewLines, h]

/-- Witness for the amended C2: concrete documents exercising the corrected
renderings — violation counts render `0` even when only the individual count
is missing, free-form UX and SEO and performance and content fields render
`N/A`, the keywords count renders `0`, and overview fields render `N/A` even
when the aggregator object itself is present. -/
theorem format_missing_fields_witness :
    (formatUXLines uxAllMissing)[6]? = some "  - Total Violations: 0" ∧
    (formatUXLines uxAllMissing)[2]? = some "Trust Impact: N/A" ∧
    (formatUXLines uxAllMissing)[11]? = some "  - Total CTAs: N/A" ∧
    (formatUXLines uxImpactPartial)[7]? = some "  - Critical Violations: 0" ∧
    (formatPerformanceLines perfAllMissing)[5]? =
      some "  - LCP (Largest Contentful Paint): N/A (good: <2.5s, bad: >4.0s)" ∧
    (formatSEOLines seoAllMissing)[6]? = some "  - Title Length: N/A chars (ideal: 30-60)" ∧
    (formatContentLines contentAllMissing)[9]? = some "  - Keywords Found: 0" ∧
    (formatOverviewLines (fun d => d) reportAggNoGrade)[3]? = some "Health Grade: N/A" ∧
    (formatOverviewLines (fun d => d) reportBare)[2]? = some "Overall Health Score: N/A / 100" := by
  obtain ⟨hU, hP, hS, hC, hO⟩ :=
    format_missing_fields (fun d => d) reportAggNoGrade uxAllMissing perfAllMissing
      seoAllMissing contentAllMissing
  obtain ⟨hU2, -, -, -, hO2⟩ :=
    format_missing_fields (fun d => d) reportBare uxImpactPartial perfAllMissing
      seoAllMissing contentAllMissing
  obtain ⟨-, -, -, -, -, -, -, -, -, -, hTrust, -, hCtas, -, hViol, -, -, -, -⟩ := hU
  obtain ⟨-, -, -, -, -, -, -, -, -, -, -, -, -, -, -, hCrit, -, -, -⟩ := hU2
  obtain ⟨-, -, -, -, -, -, -, -, -, -, -, -, -, hLcp, -, -, -, -, -, -, -, -⟩ := hP
  obtain ⟨-, -, -, -, -, -, -, -, -, -, -, hTitle, -, -, -, -, -⟩ := hS
  obtain ⟨-, -, -, -, -, -, -, -, -, -, -, -, hKw⟩ := hC
  obtain ⟨-, -, -, -, -, -, -, -, -, -, -, -, -, hGrade, -, -, -, -, -, -, -, -⟩ := hO
  obtain ⟨-, -, -, -, -, -, -, -, -, -, -, -, hScore, -, -, -, -, -, -, -, -, -⟩ := hO2
  exact ⟨hViol rfl, hTrust rfl, hCtas rfl, hCrit rfl, hLcp rfl, hTitle rfl, hKw rfl,
    hGrade rfl, hScore rfl⟩

set_option maxHeartbeats 2000000

/-! ## Claim C9 — section-header round trip

Re-parsing: split the full context on `'\n'` and keep the lines that start
with the section-header marker `"## "`. -/

/-- Does a line start with the section-header marker `"## "`? -/
def startsHH (l : List Char) : Bool := l.take 3 == ['#', '#', ' ']

/-- Split a character list at every `'\n'` (the lines of the string). -/
def splitLines : List Char → List (List Char)
  | [] => [[]]
  | c :: rest =>
      if c == '\n' then [] :: splitLines rest
      else
        match splitLines rest with
        | [] => [[c]]
        | l :: ls => (c :: l) :: ls

/-- The parsed section headers of a rendered context. -/
def headersOf (s : List Char) : List (List Char) := (splitLines s).filter startsHH

lemma splitLines_ne_nil (l : List Char) : splitLines l ≠ [] := by
  induction l with
  | nil => simp [splitLines]
  | cons c rest ih =>
      simp only [splitLines]
      split
      · simp
      · split
        · simp
        · simp

lemma splitLines_append (a b : List Char) :
    splitLines (a ++ '\n' :: b) = splitLines a ++ splitLines b := by
  induction a with
  | nil => simp [splitLines]
  | cons c rest ih =>
      by_cases hc : c = '\n'
      · subst hc
        simp only [List.cons_append, splitLines, if_pos (beq_self_eq_true _),
          List.append_eq, ih]
      · have hcb : (c == '\n') = false := by simp [hc]
        simp only [List.cons_append, splitLines, hcb, Bool.false_eq_true, if_false,
          List.append_eq]
        rw [ih]
        cases hsr : splitLines rest with
        | nil => exact absurd hsr (splitLines_ne_nil rest)
        | cons l ls => simp

lemma splitLines_eq_self (l : List Char) (h : '\n' ∉ l) : splitLines l = [l] := by
  induction l with
  | nil => rfl
  | cons c rest ih =>
      have hc : (c == '\n') = false := by
        simp only [beq_eq_false_iff_ne, ne_eq]
        intro e; exact h (e ▸ List.mem_cons_self c rest)
      have hrest : '\n' ∉ rest := fun m => h (List.mem_cons_of_mem _ m)
      simp only [splitLines, hc, Bool.false_eq_true, if_false, ih hrest]

lemma joinWith_cons₂ (sep : List α) (x y : List α) (t : List (List α)) :
    joinWith sep (x :: y :: t) = x ++ sep ++ joinWith sep (y :: t) := rfl

lemma splitLines_joinWith (lines : List (List Char)) (hne : lines ≠ [])
    (h : ∀ l ∈ lines, '\n' ∉ l) :
    splitLines (joinWith ['\n'] lines) = lines := by
  induction lines with
  | nil => exact absurd rfl hne
  | cons x rest ih =>
      cases rest with
      | nil => exact splitLines_eq_self x (h x (by simp))
      | cons y t =>
          have e : joinWith ['\n'] (x :: y :: t) = x ++ '\n' :: joinWith ['\n'] (y :: t) := by
            rw [joinWith_cons₂]; simp
          rw [e, splitLines_append, splitLines_eq_self x (h x (by simp)),
            ih (by simp) (fun l hl => h l (List.mem_cons_of_mem _ hl))]
          rfl

lemma splitLines_chunks (cs : List (List (List Char)))
    (hcs : cs ≠ []) (hne : ∀ c ∈ cs, c ≠ []) (h : ∀ c ∈ cs, ∀ l ∈ c, '\n' ∉ l) :
    splitLines (joinWith ['\n', '\n'] (cs.map (joinWith ['\n']))) = joinWith [[]] cs := by
  induction cs with
  | nil => exact absurd rfl hcs
  | cons c rest ih =>
      cases rest with
      | nil =>
          simp only [List.map_cons, List.map_nil, joinWith]
          exact splitLines_joinWith c (hne c (by simp)) (h c (by simp))
      | cons c2 t =>
          have e1 : joinWith ['\n', '\n'] ((c :: c2 :: t).map (joinWith ['\n'])) =
              joinWith ['\n'] c ++
                '\n' :: ('\n' :: joinWith ['\n', '\n'] ((c2 :: t).map (joinWith ['\n']))) := by
            simp only [List.map_cons]
            rw [joinWith_cons₂]
            simp
          have e2 : splitLines
              ('\n' :: joinWith ['\n', '\n'] ((c2 :: t).map (joinWith ['\n']))) =
              [] :: splitLines (joinWith ['\n', '\n'] ((c2 :: t).map (joinWith ['\n']))) := by
            simp [splitLines]
          rw [e1, splitLines_append, e2,
            splitLines_joinWith c (hne c (by simp)) (h c (by simp)),
            ih (by simp) (fun x hx => hne x (List.mem_cons_of_mem _ hx))
              (fun x hx => h x (List.mem_cons_of_mem _ hx))]
          rw [joinWith_cons₂]
          simp

lemma filter_joinWith_nilsep (p : List Char → Bool) (hp : p [] = false)
    (cs : List (List (List Char))) :
    (joinWith [[]] cs).filter p = (cs.map (List.filter p)).flatten := by
  induction cs with
  | nil => rfl
  | cons c rest ih =>
      cases rest with
      | nil => simp [joinWith]
      | cons c2 t =>
          rw [joinWith_cons₂]
          simp only [List.append_assoc, List.singleton_append, List.filter_append,
            List.filter_cons, hp, Bool.false_eq_true, if_false, List.map_cons,
            List.flatten_cons, ih]

/-- No line of `ls` starts with the section-header marker. -/
def NoHdr (ls : List String) : Prop := ∀ l ∈ ls, startsHH l.data = false

lemma noHdr_nil : NoHdr [] := fun l hl => absurd hl (List.not_mem_nil l)

lemma noHdr_cons {x : String} {ls : List String}
    (hx : startsHH x.data = false) (h : NoHdr ls) : NoHdr (x :: ls) := by
  intro l hl
  rcases List.mem_cons.mp hl with rfl | hl
  · exact hx
  · exact h l hl

lemma noHdr_append {a b : List String} (ha : NoHdr a) (hb : NoHdr b) : NoHdr (a ++ b) := by
  intro l hl
  rcases List.mem_append.mp hl with hl | hl
  · exact ha l hl
  · exact hb l hl

lemma noHdr_ite {c : Prop} [Decidable c] {a b : List String}
    (ha : NoHdr a) (hb : NoHdr b) : NoHdr (if c then a else b) := by
  by_cases hc : c
  · simpa [hc] using ha
  · simpa [hc] using hb

lemma noHdr_map {α : Type _} (f : α → String)
    (hf : ∀ x, startsHH (f x).data = false) (l : List α) : NoHdr (l.map f) := by
  intro s hs
  obtain ⟨x, -, rfl⟩ := List.mem_map.mp hs
  exact hf x

lemma noHdr_flatten {ls : List (List String)} (h : ∀ x ∈ ls, NoHdr x) :
    NoHdr ls.flatten := by
  intro s hs
  obtain ⟨x, hx, hsx⟩ := List.mem_flatten.mp hs
  exact h x hx s hsx

lemma noHdr_priorityLines (p : Nat × PriorityItem) : NoHdr (priorityLines p) := by
  unfold priorityLines
  apply noHdr_append
  · exact noHdr_cons rfl noHdr_nil
  · apply noHdr_ite
    · exact noHdr_cons rfl noHdr_nil
    · exact noHdr_nil

lemma startsHH_fixLine (i : Nat) (fx : FixItem) : startsHH (fixLine i fx).data = false := rfl

lemma startsHH_issueLine (i : Nat) (iss : Issue) :
    startsHH (issueLine i iss).data = false := rfl

lemma noHdr_issuesFixes (issues : List Issue) (fixes : List FixItem) :
    NoHdr (issuesAndFixesLines issues fixes) := by
  unfold issuesAndFixesLines
  apply noHdr_append
  · apply noHdr_ite
    · exact noHdr_nil
    · apply noHdr_append
      · exact noHdr_cons rfl (noHdr_cons rfl noHdr_nil)
      · intro s hs
        obtain ⟨p, -, rfl⟩ := List.mem_map.mp hs
        exact startsHH_issueLine p.1 p.2
  · apply noHdr_ite
    · exact noHdr_nil
    · apply noHdr_append
      · exact noHdr_cons rfl (noHdr_cons rfl noHdr_nil)
      · intro s hs
        obtain ⟨p, -, rfl⟩ := List.mem_map.mp hs
        exact startsHH_fixLine p.1 p.2

/-- Filtering the header marker over a headed chunk keeps exactly the head. -/
lemma filter_hdr_cons (x : String) (ls : List String)
    (hx : startsHH x.data = true) (h : NoHdr ls) :
    ((x :: ls).map String.data).filter startsHH = [x.data] := by
  simp only [List.map_cons]
  rw [List.filter_cons_of_pos hx]
  have hnil : (ls.map String.data).filter startsHH = [] := by
    rw [List.filter_eq_nil_iff]
    intro a ha
    obtain ⟨l, hl, rfl⟩ := List.mem_map.mp ha
    simp [h l hl]
  rw [hnil]

lemma filter_overview (dfmt : String → String) (r : Report) :
    ((formatOverviewLines dfmt r).map String.data).filter startsHH =
      ["## WEBSITE AUDIT OVERVIEW".data] := by
  simp only [formatOverviewLines]
  refine filter_hdr_cons _ _ rfl ?_
  repeat
    first
    | exact noHdr_nil
    | exact noHdr_issuesFixes _ _
    | refine noHdr_cons rfl ?_
    | refine noHdr_append ?_ ?_
    | refine noHdr_ite ?_ ?_
    | refine noHdr_map _ (fun x => ?_) _
    | exact rfl

lemma filter_perf (p : PerfData) :
    ((formatPerformanceLines p).map String.data).filter startsHH =
      [("## PERFORMANCE MODULE (Score: " ++ showIntNA p.score ++ "/100)").data] := by
  simp only [formatPerformanceLines]
  refine filter_hdr_cons _ _ rfl ?_
  repeat
    first
    | exact noHdr_nil
    | exact noHdr_issuesFixes _ _
    | refine noHdr_cons rfl ?_
    | refine noHdr_append ?_ ?_
    | refine noHdr_ite ?_ ?_
    | refine noHdr_map _ (fun x => ?_) _
    | exact rfl

lemma filter_seo (s : SEOData) :
    ((formatSEOLines s).map String.data).filter startsHH =
      [("## SEO MODULE (Score: " ++ showIntNA s.score ++ "/100)").data] := by
  simp only [formatSEOLines]
  refine filter_hdr_cons _ _ rfl ?_
  repeat
    first
    | exact noHdr_nil
    | exact noHdr_issuesFixes _ _
    | refine noHdr_cons rfl ?_
    | refine noHdr_append ?_ ?_
    | refine noHdr_ite ?_ ?_
    | refine noHdr_map _ (fun x => ?_) _
    | exact rfl

lemma filter_ux (u : UXData) :
    ((formatUXLines u).map String.data).filter startsHH =
      [("## UX & ACCESSIBILITY MODULE (Score: " ++ showIntNA u.score ++ "/100)").data] := by
  simp only [formatUXLines]
  refine filter_hdr_cons _ _ rfl ?_
  repeat
    first
    | exact noHdr_nil
    | exact noHdr_issuesFixes _ _
    | refine noHdr_cons rfl ?_
    | refine noHdr_append ?_ ?_
    | refine noHdr_ite ?_ ?_
    | refine noHdr_map _ (fun x => ?_) _
    | exact rfl

lemma filter_content (c : ContentData) :
    ((formatContentLines c).map String.data).filter startsHH =
      [("## CONTENT QUALITY MODULE (Score: " ++ showIntNA c.score ++ "/100)").data] := by
  simp only [formatContentLines]
  refine filter_hdr_cons _ _ rfl ?_
  repeat
    first
    | exact noHdr_nil
    | exact noHdr_issuesFixes _ _
    | refine noHdr_cons rfl ?_
    | refine noHdr_append ?_ ?_
    | refine noHdr_ite ?_ ?_
    | refine noHdr_map _ (fun x => ?_) _
    | exact rfl

lemma filter_ai (ins : AIInsights) :
    ((formatAIInsightsLines ins).map String.data).filter startsHH =
      ["## AI STRATEGIC INSIGHTS".data] := by
  simp only [formatAIInsightsLines]
  refine filter_hdr_cons _ _ rfl ?_
  repeat
    first
    | exact noHdr_nil
    | exact noHdr_issuesFixes _ _
    | exact noHdr_flatten (fun x hx => by
        obtain ⟨pr, -, rfl⟩ := List.mem_map.mp hx
        exact noHdr_priorityLines pr)
    | refine noHdr_cons rfl ?_
    | refine noHdr_append ?_ ?_
    | refine noHdr_ite ?_ ?_
    | refine noHdr_map _ (fun x => ?_) _
    | exact rfl

/-- The expected ordered section headers: overview always first, then one
header per module whose data is present, in the fixed order
performance → seo → ux → content → ai-insights. -/
def sectionHeaderLines (r : Report) : List (List Char) :=
  ["## WEBSITE AUDIT OVERVIEW".data] ++
  (match modPerf r with
   | some p => [("## PERFORMANCE MODULE (Score: " ++ showIntNA p.score ++ "/100)").data]
   | none => []) ++
  (match modSEO r with
   | some s => [("## SEO MODULE (Score: " ++ showIntNA s.score ++ "/100)").data]
   | none => []) ++
  (match modUX r with
   | some u => [("## UX & ACCESSIBILITY MODULE (Score: " ++ showIntNA u.score ++ "/100)").data]
   | none => []) ++
  (match modContent r with
   | some c => [("## CONTENT QUALITY MODULE (Score: " ++ showIntNA c.score ++ "/100)").data]
   | none => []) ++
  (match r.ai_insights with
   | some _ => ["## AI STRATEGIC INSIGHTS".data]
   | none => [])

lemma mem_optChunk {α : Type _} {o : Option α} {f : α → List String} {ls : List String}
    (h : ls ∈ optChunk o f) : ∃ x, o = some x ∧ ls = f x := by
  cases o with
  | none => simp [optChunk] at h
  | some x =>
      simp only [optChunk, List.mem_singleton] at h
      exact ⟨x, rfl, h⟩

lemma chunks_ne_nil (dfmt : String → String) (r : Report) :
    ∀ ls ∈ reportChunks dfmt r, ls ≠ [] := by
  intro ls hls
  unfold reportChunks at hls
  simp only [List.append_assoc, List.mem_append, List.mem_singleton] at hls
  rcases hls with rfl | h | h | h | h | h
  · simp [formatOverviewLines]
  · obtain ⟨x, -, rfl⟩ := mem_optChunk h; simp [formatPerformanceLines]
  · obtain ⟨x, -, rfl⟩ := mem_optChunk h; simp [formatSEOLines]
  · obtain ⟨x, -, rfl⟩ := mem_optChunk h; simp [formatUXLines]
  · obtain ⟨x, -, rfl⟩ := mem_optChunk h; simp [formatContentLines]
  · obtain ⟨x, -, rfl⟩ := mem_optChunk h; simp [formatAIInsightsLines]

/-- **C9, amended.** For every report document all of whose rendered lines
are free of embedded newline characters, re-parsing the section headers of
the full context built by `buildReportContext` recovers exactly one header
per present module plus the overview, in the fixed order
overview → performance → seo → ux → content → ai-insights, skipping every
module whose data is absent.  (Without that restriction the round trip
fails: see the counterexample, where a string field containing a newline
followed by `"## "` forges an extra header line.) -/
theorem fullContext_headers_roundtrip (dfmt : String → String) (r : Report)
    (h : ∀ c ∈ reportChunks dfmt r, ∀ l ∈ c, '\n' ∉ l.data) :
    headersOf (fullContextChars dfmt r) = sectionHeaderLines r := by
  have hmap : (reportChunks dfmt r).map joinLinesC =
      ((reportChunks dfmt r).map (List.map String.data)).map (joinWith ['\n']) := by
    rw [List.map_map]; rfl
  have hcs : (reportChunks dfmt r).map (List.map String.data) ≠ [] := by
    simp [reportChunks]
  have hne : ∀ c ∈ (reportChunks dfmt r).map (List.map String.data), c ≠ [] := by
    intro c hc
    obtain ⟨ls, hls, rfl⟩ := List.mem_map.mp hc
    simp only [ne_eq, List.map_eq_nil_iff]
    exact chunks_ne_nil dfmt r ls hls
  have hnl : ∀ c ∈ (reportChunks dfmt r).map (List.map String.data), ∀ l ∈ c, '\n' ∉ l := by
    intro c hc l hl
    obtain ⟨ls, hls, rfl⟩ := List.mem_map.mp hc
    obtain ⟨s, hs, rfl⟩ := List.mem_map.mp hl
    exact h ls hls s hs
  unfold headersOf fullContextChars
  rw [hmap, splitLines_chunks _ hcs hne hnl, filter_joinWith_nilsep startsHH rfl]
  simp only [List.map_map]
  unfold reportChunks sectionHeaderLines
  cases modPerf r <;> cases modSEO r <;> cases modUX r <;> cases modContent r <;>
    cases r.ai_insights <;>
    simp [optChunk, Function.comp, filter_overview, filter_perf, filter_seo, filter_ux,
      filter_content, filter_ai]

/-- A concrete UX module and report used to witness the round trip. -/
def uxSample : UXData :=
  ⟨some 80, some "LOW", none, none, some 3, none, some 4, some 2, [], [], []⟩

/-- A concrete report with exactly the UX module present. -/
def reportSample : Report :=
  ⟨"https://example.com", some "https://example.com/home", some "2024-01-01",
   none, some ⟨none, none, some uxSample, none⟩, none⟩

/-- Witness for C9: the concrete report's rendered lines are newline-free and
its parsed headers are exactly the overview header followed by the UX header. -/
theorem fullContext_headers_roundtrip_witness :
    (∀ c ∈ reportChunks (fun _ => "1/1/2024") reportSample, ∀ l ∈ c, '\n' ∉ l.data) ∧
    headersOf (fullContextChars (fun _ => "1/1/2024") reportSample) =
      sectionHeaderLines reportSample := by
  have hyp : ∀ c ∈ reportChunks (fun _ => "1/1/2024") reportSample,
      ∀ l ∈ c, '\n' ∉ l.data := by decide
  exact ⟨hyp, fullContext_headers_roundtrip _ reportSample hyp⟩

/-- A report document one of whose string fields embeds a forged header:
the executive summary contains a newline followed by `"## "`. -/
def reportForged : Report :=
  ⟨"https://example.com", none, none, none, none,
   some ⟨some "fine\n## FAKE SECTION", [], [], []⟩⟩

/-- **C9, counterexample.** The round trip does not hold for every report
document: on a concrete document whose executive summary embeds
`"\n## FAKE SECTION"`, re-parsing the section headers of the full context
yields a forged extra header, so the recovered list differs from the ordered
present-module sections. -/
theorem fullContext_headers_forged :
    "## FAKE SECTION".data ∈ headersOf (fullContextChars (fun d => d) reportForged) ∧
    headersOf (fullContextChars (fun d => d) reportForged) ≠ sectionHeaderLines reportForged := by
  decide
